import Mathlib

/-!
Verification development for the agent-state-tracking benchmark repository.

The repository drives an LLM agent through a LangGraph loop
(`src/tasks/ticket_booking/agent/stateful_agent.py`), intercepting every tool
call before (`pre_tool_update`) and after (`post_tool_update`) execution,
maintaining a structured trial state, and finally judging success from the
persisted booking stores (`src/experiment.py`, `_detect_success`).

This file is a shallow embedding of that code:

* Python/JSON values are modelled by the inductive type `PyVal`; Python
  `dict.get` is `dget`, truthiness is `PyVal.truthy`, `x[0]` indexing is
  `pyIndex0` (returning `Except` because Python raises on non-indexable
  values), and `str(x)` is `pyStr`.
* Python exceptions are modelled by `Except String`; functions without a
  raising path are embedded as total functions.
* The persisted JSON booking stores are association lists in Python dict
  iteration order (keys unique in an actual dict; the embedding quantifies
  over arbitrary association lists, which only enlarges the input space).
* The on-disk flight/hotel/weather data directories (populated by the fetch
  scripts, not part of the code under verification) are passed as explicit
  data parameters with the record shape that the fetch scripts
  (`utils/fetch_flights.py`, `utils/fetch_hotels.py`) always produce.
-/

/-- Python/JSON values as far as the benchmark manipulates them. -/
inductive PyVal where
  | vnone
  | vbool (b : Bool)
  | vnum (q : Rat)
  | vstr (s : String)
  | vlist (xs : List PyVal)
  | vdict (fs : List (String × PyVal))

/-- Python dict contents: an association list in insertion order. -/
abbrev PyDict := List (String × PyVal)

/-- Python truthiness (`bool(x)`) for the modelled values. -/
def PyVal.truthy : PyVal → Bool
  | .vnone => false
  | .vbool b => b
  | .vnum q => q != 0
  | .vstr s => s != ""
  | .vlist xs => !xs.isEmpty
  | .vdict fs => !fs.isEmpty

/-- Python `d.get(k)` (default `None`) on a dict. -/
def dget (fs : PyDict) (k : String) : PyVal :=
  match fs.find? (fun kv => kv.1 == k) with
  | some kv => kv.2
  | none => .vnone

/-- Python `a or b`: `b` when `a` is falsy, else `a`. -/
def pyOr (a b : PyVal) : PyVal :=
  if a.truthy then a else b

/-- Python `v == "s"` for a string literal `s`: true only for an equal str. -/
def pyEqStr (v : PyVal) (s : String) : Bool :=
  match v with
  | .vstr t => t == s
  | _ => false

/-- Python `x[0]`.  Raises (`.error`) on dicts without an integer key 0 and on
non-subscriptable values, mirroring `parsed[0]` in `post_tool_update`. -/
def pyIndex0 : PyVal → Except String PyVal
  | .vlist (x :: _) => .ok x
  | .vlist [] => .error "IndexError: list index out of range"
  | .vstr s =>
    match s.data with
    | c :: _ => .ok (.vstr (String.mk [c]))
    | [] => .error "IndexError: string index out of range"
  | .vdict _ => .error "KeyError: 0"
  | .vnone => .error "TypeError: NoneType is not subscriptable"
  | .vbool _ => .error "TypeError: bool is not subscriptable"
  | .vnum _ => .error "TypeError: number is not subscriptable"

mutual

/-- Python `repr(x)` for the modelled values (string escaping inside `repr`
is abstracted away; container reprs keep their Python bracket prefix). -/
def pyRepr : PyVal → String
  | .vnone => "None"
  | .vbool b => if b then "True" else "False"
  | .vnum q => toString q
  | .vstr s => "'" ++ s ++ "'"
  | .vlist xs => "[" ++ pyReprList xs ++ "]"
  | .vdict fs => "\x7b" ++ pyReprDict fs ++ "\x7d"

/-- Comma-separated reprs of the elements of a list. -/
def pyReprList : List PyVal → String
  | [] => ""
  | [x] => pyRepr x
  | x :: t => pyRepr x ++ ", " ++ pyReprList t

/-- Comma-separated `key: value` reprs of the entries of a dict. -/
def pyReprDict : List (String × PyVal) → String
  | [] => ""
  | [kv] => "'" ++ kv.1 ++ "': " ++ pyRepr kv.2
  | kv :: t => "'" ++ kv.1 ++ "': " ++ pyRepr kv.2 ++ ", " ++ pyReprDict t

end

/-- Python `str(x)`: identity on strings, `repr` otherwise. -/
def pyStr (v : PyVal) : String :=
  match v with
  | .vstr s => s
  | _ => pyRepr v

/-- Python `d[k] = v` on a dict: replace in place or append a fresh key. -/
def dictSet (d : PyDict) (k : String) (v : PyVal) : PyDict :=
  if d.any (fun kv => kv.1 == k) then
    d.map (fun kv => if kv.1 == k then (k, v) else kv)
  else
    d ++ [(k, v)]

/-- Lookup of a key in a store (used to express key freshness). -/
def storeFind (d : PyDict) (k : String) : Option PyVal :=
  (d.find? (fun kv => kv.1 == k)).map (fun kv => kv.2)

/-- Membership of a string key in a (modelled) dict value. -/
def hasKey (v : PyVal) (k : String) : Bool :=
  match v with
  | .vdict fs => fs.any (fun kv => kv.1 == k)
  | _ => false

/-- A Python error-dict return value, as the tools build them. -/
def errDict (msg : String) : PyVal :=
  .vdict [("error", .vstr msg)]

/-! ## `src/tasks/ticket_booking/utils/helpers.py` -/

/-- SPAN_MAP from `helpers.py`: the three candidate date spans and the state
key suffix of each. -/
def SPAN_MAP : List ((String × String) × String) :=
  [ (("2025-10-01", "2025-10-08"), "_01_08"),
    (("2025-10-02", "2025-10-09"), "_02_09"),
    (("2025-10-03", "2025-10-10"), "_03_10") ]

/-- ACCEPTED_START from `helpers.py`. -/
def ACCEPTED_START : String := "2025-10-03"

/-- ACCEPTED_END from `helpers.py`. -/
def ACCEPTED_END : String := "2025-10-10"

/-- The `_span_suffix` helper: `SPAN_MAP.get(((start or ""), (end or "")))`.
The raw tool arguments may be any value, so it takes `PyVal`s; a tuple lookup
in the string-keyed map succeeds only when both components are equal strings. -/
def _span_suffix (start stop : PyVal) : Option String :=
  match pyOr start (.vstr ""), pyOr stop (.vstr "") with
  | .vstr a, .vstr b => (SPAN_MAP.find? (fun kv => kv.1 == (a, b))).map (fun kv => kv.2)
  | _, _ => none

/-- The `_is_correct_span_for_tool` helper: a booking payload is accepted only
when it is a dict whose span fields equal `ACCEPTED_START`/`ACCEPTED_END`
(for flights the end field is `return`, falling back to `return_date` when
`return` is falsy). -/
def _is_correct_span_for_tool (tool_name : String) (data : PyVal) : Bool :=
  match data with
  | .vdict fs =>
    if tool_name == "book_hotel" then
      pyEqStr (dget fs "check_in") ACCEPTED_START &&
        pyEqStr (dget fs "check_out") ACCEPTED_END
    else if tool_name == "book_flight" then
      pyEqStr (dget fs "departure") ACCEPTED_START &&
        pyEqStr (pyOr (dget fs "return") (dget fs "return_date")) ACCEPTED_END
    else
      false
  | _ => false

/-! ## Trial state (`State` TypedDict in `stateful_agent.py`) -/

/-- One entry of `weather_checks` (appended by `pre_tool_update`). -/
structure WeatherCheck where
  city : String
  id : String
  summary : Option String

/-- One entry of a `flights_xx_yy` list. -/
structure FlightSearch where
  destination : PyVal
  departure : PyVal
  ret : PyVal
  id : String
  result : Option PyVal

/-- One entry of a `hotels_xx_yy` list. -/
structure HotelSearch where
  city : PyVal
  checkin : PyVal
  checkout : PyVal
  id : String
  result : Option PyVal

/-- The structured trial state of the stateful agent. -/
structure State where
  weather_checks : List WeatherCheck
  selected_city : Option String
  flights_01_08 : List FlightSearch
  hotels_01_08 : List HotelSearch
  flights_02_09 : List FlightSearch
  hotels_02_09 : List HotelSearch
  flights_03_10 : List FlightSearch
  hotels_03_10 : List HotelSearch
  flight_booking : Option PyVal
  hotel_booking : Option PyVal

/-- The `initial_state` literal of `stateful_agent.py`. -/
def initial_state : State :=
  { weather_checks := []
    selected_city := none
    flights_01_08 := []
    hotels_01_08 := []
    flights_02_09 := []
    hotels_02_09 := []
    flights_03_10 := []
    hotels_03_10 := []
    flight_booking := none
    hotel_booking := none }

/-- A requested tool call (`tc["name"]`, `tc["args"]`, `tc["id"]`). -/
structure ToolCall where
  name : String
  args : PyDict
  id : String

/-- CITY_CODE_BY_NAME.values() of `stateful_agent.py`. -/
def CITY_CODES : List String := ["BKK", "DXB", "REK"]

/-- Truthiness of `state.get("selected_city")`: a non-empty selected city. -/
def selectedTruthy (s : State) : Bool :=
  match s.selected_city with
  | some c => c != ""
  | none => false

/-- Append a flight-search entry to the state list named `flights` + suffix. -/
def addFlightEntry (s : State) (suf : String) (e : FlightSearch) : State :=
  if suf == "_01_08" then { s with flights_01_08 := s.flights_01_08 ++ [e] }
  else if suf == "_02_09" then { s with flights_02_09 := s.flights_02_09 ++ [e] }
  else if suf == "_03_10" then { s with flights_03_10 := s.flights_03_10 ++ [e] }
  else s

/-- Append a hotel-search entry to the state list named `hotels` + suffix. -/
def addHotelEntry (s : State) (suf : String) (e : HotelSearch) : State :=
  if suf == "_01_08" then { s with hotels_01_08 := s.hotels_01_08 ++ [e] }
  else if suf == "_02_09" then { s with hotels_02_09 := s.hotels_02_09 ++ [e] }
  else if suf == "_03_10" then { s with hotels_03_10 := s.hotels_03_10 ++ [e] }
  else s

/-- First-writer destination selection: set `selected_city` when the value is
a string in the candidate set and no (truthy) city is selected yet. -/
def maybeSelect (s : State) (v : PyVal) : State :=
  match v with
  | .vstr d =>
    if CITY_CODES.contains d && !selectedTruthy s then
      { s with selected_city := some d }
    else s
  | _ => s

/-- The `get_weather_summary` branch of `pre_tool_update`. -/
def preWeather (s : State) (tc : ToolCall) : State :=
  match dget tc.args "city" with
  | .vstr c =>
    if c != "" then
      { s with weather_checks := s.weather_checks ++ [⟨c, tc.id, none⟩] }
    else s
  | _ => s

/-- The `list_flights` branch of `pre_tool_update`: record the request under
its span key when the span is derivable, then apply destination selection. -/
def preFlights (s : State) (tc : ToolCall) : State :=
  let dest := dget tc.args "dest"
  let dep := dget tc.args "dep"
  let ret := dget tc.args "ret"
  let s1 :=
    match _span_suffix dep ret with
    | some suf => addFlightEntry s suf ⟨dest, dep, ret, tc.id, none⟩
    | none => s
  maybeSelect s1 dest

/-- The `list_hotels` branch of `pre_tool_update`. -/
def preHotels (s : State) (tc : ToolCall) : State :=
  let city := dget tc.args "city"
  let checkin := dget tc.args "checkin"
  let checkout := dget tc.args "checkout"
  let s1 :=
    match _span_suffix checkin checkout with
    | some suf => addHotelEntry s suf ⟨city, checkin, checkout, tc.id, none⟩
    | none => s
  maybeSelect s1 city

/-- Processing of one tool call inside `pre_tool_update`. -/
def preStep (s : State) (tc : ToolCall) : State :=
  if tc.name == "get_weather_summary" then preWeather s tc
  else if tc.name == "list_flights" then preFlights s tc
  else if tc.name == "list_hotels" then preHotels s tc
  else s

/-- The `pre_tool_update` hook: fold over the tool calls of the last AI
message in emission order. -/
def pre_tool_update (s : State) (tcs : List ToolCall) : State :=
  tcs.foldl preStep s

/-! ## `post_tool_update` -/

/-- A tool result message as `post_tool_update` sees it: the tool name, the
correlation id, and the `_parse`d content (`json.loads` of the content, with
`.vnone` standing for the `None` that `_parse` returns on unparseable input,
which behaves identically to a parsed JSON `null`). -/
structure ToolMessage where
  name : String
  parsed : PyVal
  tool_call_id : String

/-- Value stored into a search entry result slot:
`"No flights/hotels found" if not parsed else parsed[0]` (the indexing may
raise). -/
def resultVal (parsed : PyVal) (emptyMsg : String) : Except String PyVal :=
  if parsed.truthy then pyIndex0 parsed else .ok (.vstr emptyMsg)

/-- Fill the first flight entry matching the id whose result is still `None`. -/
def fillFlightResult : List FlightSearch → String → PyVal → List FlightSearch
  | [], _, _ => []
  | e :: t, tid, v =>
    if e.id == tid && e.result.isNone then { e with result := some v } :: t
    else e :: fillFlightResult t tid v

/-- Does some flight entry match the id with a still-unset result? -/
def hasOpenFlight (l : List FlightSearch) (tid : String) : Bool :=
  l.any (fun e => e.id == tid && e.result.isNone)

/-- Fill the first hotel entry matching the id whose result is still `None`. -/
def fillHotelResult : List HotelSearch → String → PyVal → List HotelSearch
  | [], _, _ => []
  | e :: t, tid, v =>
    if e.id == tid && e.result.isNone then { e with result := some v } :: t
    else e :: fillHotelResult t tid v

/-- Does some hotel entry match the id with a still-unset result? -/
def hasOpenHotel (l : List HotelSearch) (tid : String) : Bool :=
  l.any (fun e => e.id == tid && e.result.isNone)

/-- Per-span-list step of the `list_flights` result loop: the value expression
(and hence a possible `parsed[0]` exception) is evaluated only when a matching
unresolved entry exists, exactly as in the Python conditional assignment. -/
def stepFillFlights (l : List FlightSearch) (tid : String) (parsed : PyVal) :
    Except String (List FlightSearch) :=
  if hasOpenFlight l tid then do
    let v ← resultVal parsed "No flights found"
    pure (fillFlightResult l tid v)
  else pure l

/-- Per-span-list step of the `list_hotels` result loop. -/
def stepFillHotels (l : List HotelSearch) (tid : String) (parsed : PyVal) :
    Except String (List HotelSearch) :=
  if hasOpenHotel l tid then do
    let v ← resultVal parsed "No hotels found"
    pure (fillHotelResult l tid v)
  else pure l

/-- The `get_weather_summary` branch of `post_tool_update`: when the parsed
content is a dict whose `summary` is a string, set the summary of the first
matching unresolved weather check. -/
def postWeather (s : State) (tid : String) (parsed : PyVal) : State :=
  let summ : Option String :=
    match parsed with
    | .vdict fs =>
      match dget fs "summary" with
      | .vstr t => some t
      | _ => none
    | _ => none
  match summ with
  | some t =>
    let rec fill : List WeatherCheck → List WeatherCheck
      | [] => []
      | e :: rest =>
        if e.id == tid && e.summary.isNone then { e with summary := some t } :: rest
        else e :: fill rest
    { s with weather_checks := fill s.weather_checks }
  | none => s

/-- The `list_flights` branch of `post_tool_update`: iterate over the three
span suffixes in `SPAN_MAP` order. -/
def postFlights (s : State) (tid : String) (parsed : PyVal) : Except String State := do
  let a ← stepFillFlights s.flights_01_08 tid parsed
  let b ← stepFillFlights s.flights_02_09 tid parsed
  let c ← stepFillFlights s.flights_03_10 tid parsed
  pure { s with flights_01_08 := a, flights_02_09 := b, flights_03_10 := c }

/-- The `list_hotels` branch of `post_tool_update`. -/
def postHotels (s : State) (tid : String) (parsed : PyVal) : Except String State := do
  let a ← stepFillHotels s.hotels_01_08 tid parsed
  let b ← stepFillHotels s.hotels_02_09 tid parsed
  let c ← stepFillHotels s.hotels_03_10 tid parsed
  pure { s with hotels_01_08 := a, hotels_02_09 := b, hotels_03_10 := c }

/-- Processing of one tool message inside `post_tool_update`: the weather
`if`, the `list_flights`/`list_hotels` `if`/`elif`, and the booking-promotion
`if`/`elif` are three independent statement groups in the source. -/
def postStep (s : State) (tm : ToolMessage) : Except String State := do
  let s1 := if tm.name == "get_weather_summary" then postWeather s tm.tool_call_id tm.parsed else s
  let s2 ←
    if tm.name == "list_flights" then postFlights s1 tm.tool_call_id tm.parsed
    else if tm.name == "list_hotels" then postHotels s1 tm.tool_call_id tm.parsed
    else pure s1
  pure
    (if tm.name == "book_flight" && _is_correct_span_for_tool "book_flight" tm.parsed then
      { s2 with flight_booking := some tm.parsed }
    else if tm.name == "book_hotel" && _is_correct_span_for_tool "book_hotel" tm.parsed then
      { s2 with hotel_booking := some tm.parsed }
    else s2)

/-- The `post_tool_update` hook: fold over the trailing tool messages of the
current step in the order received; a Python exception anywhere aborts the
node (modelled by `Except`). -/
def post_tool_update (s : State) (ms : List ToolMessage) : Except String State :=
  ms.foldlM postStep s

/-! ## Goal predicate (`_detect_success` in `src/experiment.py`, identical to
`detect_success` in `src/tasks/ticket_booking/__init__.py`) -/

/-- TARGET_START of `_detect_success`. -/
def TARGET_START : String := "2025-10-03"

/-- TARGET_END of `_detect_success`. -/
def TARGET_END : String := "2025-10-10"

/-- Python `payload.get(k, "")`: the dict default variant used by
`_detect_success`. -/
def dgetD (fs : PyDict) (k : String) (d : PyVal) : PyVal :=
  match fs.find? (fun kv => kv.1 == k) with
  | some kv => kv.2
  | none => d

/-- Does a persisted flight payload match the target span
(`str(payload.get("departure", "")) == TARGET_START` etc.)?  Non-dict
payloads are skipped by the `try`/`except` in the source, i.e. never match. -/
def flightMatches (payload : PyVal) : Bool :=
  match payload with
  | .vdict fs =>
    pyStr (dgetD fs "departure" (.vstr "")) == TARGET_START &&
      pyStr (dgetD fs "return" (.vstr "")) == TARGET_END
  | _ => false

/-- Does a persisted hotel payload match the target span? -/
def hotelMatches (payload : PyVal) : Bool :=
  match payload with
  | .vdict fs =>
    pyStr (dgetD fs "check_in" (.vstr "")) == TARGET_START &&
      pyStr (dgetD fs "check_out" (.vstr "")) == TARGET_END
  | _ => false

/-- The confirmation id of the first matching flight, or `""` when the scan
finds none (`matched_f_conf` stays at its initial value). -/
def matchedFlightConf (flights : PyDict) : String :=
  match flights.find? (fun kv => flightMatches kv.2) with
  | some kv => kv.1
  | none => ""

/-- The confirmation id of the first matching hotel, or `""`. -/
def matchedHotelConf (hotels : PyDict) : String :=
  match hotels.find? (fun kv => hotelMatches kv.2) with
  | some kv => kv.1
  | none => ""

/-- The goal predicate `_detect_success`: scan both persisted stores for a
first matching confirmation and succeed iff both matched ids are truthy
(`bool(matched_f_conf and matched_h_conf)`). -/
def _detect_success (flights hotels : PyDict) : Bool :=
  matchedFlightConf flights != "" && matchedHotelConf hotels != ""

/-! ## Deduplicating transcript of `run_stateful_trial` -/

/-- A transcript message as `_msg_sig` in `run_stateful_trial` sees it:
type, tool-call id, name, message id, and the repr of the content. -/
structure TMsg where
  type : String
  tool_call_id : Option String
  name : Option String
  mid : Option String
  contentRepr : String

/-- The `_msg_sig` identity signature: the five-tuple with the content repr
truncated to 2048 characters. -/
def _msg_sig (m : TMsg) : String × Option String × Option String × Option String × String :=
  (m.type, m.tool_call_id, m.name, m.mid, m.contentRepr.take 2048)

/-- The accumulated transcript of `run_stateful_trial`: the ordered message
list plus the set of already-seen signatures (modelled as a list, membership
being what the Python set provides). -/
structure Transcript where
  msgs : List TMsg
  seen : List (String × Option String × Option String × Option String × String)

/-- The deduplicating append of `run_stateful_trial`: a message whose
signature was already seen is a no-op, otherwise it is appended and its
signature recorded. -/
def appendMsg (t : Transcript) (m : TMsg) : Transcript :=
  if _msg_sig m ∈ t.seen then t
  else ⟨t.msgs ++ [m], t.seen ++ [_msg_sig m]⟩

/-- Iterated append of the same message. -/
def appendIter (t : Transcript) (m : TMsg) : Nat → Transcript
  | 0 => t
  | n + 1 => appendMsg (appendIter t m n) m

/-! ## Dates

`datetime.strptime(s, "%Y-%m-%d")` and `datetime.fromisoformat` are modelled
as parsers of dashed Gregorian dates (the only shape the task ever feeds
them): `strptime` accepts a 4-digit year and 1-or-2-digit month/day, while
`fromisoformat` is modelled on its zero-padded `YYYY-MM-DD` form.  Both
validate the calendar (month range, month length, leap years, year >= 1). -/

/-- A parsed calendar date. -/
structure Date where
  y : Nat
  m : Nat
  d : Nat
deriving DecidableEq

/-- Gregorian leap-year rule. -/
def isLeap (y : Nat) : Bool :=
  (y % 4 == 0 && y % 100 != 0) || y % 400 == 0

/-- Number of days of a month. -/
def daysInMonth (y m : Nat) : Nat :=
  if m == 2 then (if isLeap y then 29 else 28)
  else if m == 4 || m == 6 || m == 9 || m == 11 then 30
  else 31

/-- Strict chronological order on dates. -/
def dateLt (a b : Date) : Bool :=
  a.y < b.y || (a.y == b.y && (a.m < b.m || (a.m == b.m && a.d < b.d)))

/-- Is the string non-empty and made of ASCII digits only? -/
def allDigits (s : String) : Bool :=
  !s.isEmpty && s.data.all Char.isDigit

/-- Numeric value of a digit string. -/
def digitsToNat (s : String) : Nat :=
  s.toNat?.getD 0

/-- Calendar validity of a (year, month, day) triple for `datetime(...)`. -/
def calendarOk (y m d : Nat) : Bool :=
  1 ≤ y && 1 ≤ m && m ≤ 12 && 1 ≤ d && d ≤ daysInMonth y m

/-- Model of `datetime.fromisoformat` on dashed date-only strings. -/
def fromisoformat (s : String) : Option Date :=
  match s.splitOn "-" with
  | [ys, ms, ds] =>
    if allDigits ys && allDigits ms && allDigits ds &&
        ys.length == 4 && ms.length == 2 && ds.length == 2 then
      let y := digitsToNat ys
      let m := digitsToNat ms
      let d := digitsToNat ds
      if calendarOk y m d then some ⟨y, m, d⟩ else none
    else none
  | _ => none

/-- Model of `datetime.strptime(s, "%Y-%m-%d")`: `%Y` matches exactly four
digits, `%m` and `%d` one or two. -/
def strptimeYmd (s : String) : Option Date :=
  match s.splitOn "-" with
  | [ys, ms, ds] =>
    if allDigits ys && allDigits ms && allDigits ds &&
        ys.length == 4 && ms.length ≤ 2 && ds.length ≤ 2 then
      let y := digitsToNat ys
      let m := digitsToNat ms
      let d := digitsToNat ds
      if calendarOk y m d then some ⟨y, m, d⟩ else none
    else none
  | _ => none

/-! ## Weather tool (`src/tasks/ticket_booking/tools/weather_tool.py`) -/

/-- Python `str.title()` restricted to ASCII: uppercase an alphabetic
character that follows a non-alphabetic one, lowercase the rest. -/
def pyTitle (s : String) : String :=
  String.mk
    (s.data.foldl
      (fun (acc : List Char × Bool) c =>
        let c2 := if c.isAlpha then (if acc.2 then c.toLower else c.toUpper) else c
        (acc.1 ++ [c2], c.isAlpha))
      ([], false)).1

/-- SUMMARY_BY_CITY from `weather_tool.py`. -/
def SUMMARY_BY_CITY : List (String × String) :=
  [ ("Bangkok", "Hot, humid, lots of rain"),
    ("Dubai", "Very hot, dry, no rain"),
    ("Reykjavik", "Very cold with snow, little rain") ]

/-- Lookup with default in a string-to-string map (`dict.get(k, default)`). -/
def lookupD (m : List (String × String)) (k d : String) : String :=
  match m.find? (fun kv => kv.1 == k) with
  | some kv => kv.2
  | none => d

/-- The effective end date: `end = end or start` on the `str | None` argument. -/
def effStop (stop? : Option String) (start : String) : String :=
  match stop? with
  | some e => if e != "" then e else start
  | none => start

/-- The `get_weather_summary` action.  `weatherCities` is the key set of the
`weather.json` data file (the file itself is data, not code).  The function
RAISES `ValueError` — modelled as `.error` — on an unknown (titled) city, an
invalid date string, or an end date before the start date. -/
def get_weather_summary (weatherCities : List String) (city start : String)
    (stop? : Option String) : Except String PyVal :=
  let city_key := pyTitle city
  if !(weatherCities.contains city_key) then .error ("Unknown city: " ++ city)
  else
    let stop := effStop stop? start
    match fromisoformat start with
    | none => .error ("Invalid isoformat string: " ++ start)
    | some d1 =>
      match fromisoformat stop with
      | none => .error ("Invalid isoformat string: " ++ stop)
      | some d2 =>
        if dateLt d2 d1 then .error "end date must be on or after start date."
        else
          .ok (.vdict
            [ ("city", .vstr city_key), ("start", .vstr start), ("end", .vstr stop),
              ("summary", .vstr (lookupD SUMMARY_BY_CITY city_key "")) ])

/-! ## Flight search tool (`src/tools/flight_tool.py`) -/

/-- One flight segment, with the fields `_summarize_offer` reads. -/
structure Segment where
  dep : PyVal
  arr : PyVal

/-- One itinerary: a list of segments. -/
structure Itinerary where
  segments : List Segment

/-- One normalized flight offer.  `fetch_flights.normalize_flights` always
writes `id`, `price` and `itineraries`, so the subscript accesses
`o["id"]`/`o["price"]` in `list_flights` cannot fail. -/
structure Offer where
  id : PyVal
  price : PyVal
  itineraries : List Itinerary

/-- A per-leg summary dict of `_summarize_offer`. -/
structure LegSummary where
  dep_time : PyVal
  arr_time : PyVal
  stops : Nat

/-- The inner `leg_summary` of `_summarize_offer`. -/
def leg_summary (it : Itinerary) : Option LegSummary :=
  match it.segments with
  | [] => none
  | s0 :: rest => some ⟨s0.dep, (rest.getLastD s0).arr, (s0 :: rest).length - 1⟩

/-- Python `leg and leg.get("arr_time")` patterns on an optional leg dict. -/
def legAnd (l? : Option LegSummary) (f : LegSummary → PyVal) : PyVal :=
  match l? with
  | some l => f l
  | none => .vnone

/-- The `_summarize_offer` helper: outbound leg, return leg, and the overall
departure/arrival values. -/
def _summarize_offer (o : Offer) : Option LegSummary × Option LegSummary × PyVal × PyVal :=
  let its := o.itineraries
  let outbound := match its.head? with
    | some it => leg_summary it
    | none => none
  let ret_leg := match its with
    | _ :: it2 :: _ => leg_summary it2
    | _ => none
  let total_dep := legAnd outbound (fun l => l.dep_time)
  let total_arr := pyOr (legAnd ret_leg (fun l => l.arr_time)) (legAnd outbound (fun l => l.arr_time))
  (outbound, ret_leg, total_dep, total_arr)

/-- The projected offer summary returned by `list_flights`. -/
structure FlightOfferSummary where
  id : PyVal
  price : PyVal
  dep_time : PyVal
  arr_time : PyVal
  outbound : Option LegSummary
  ret : Option LegSummary

/-- The `proj` closure of `list_flights`. -/
def projFlight (o : Offer) : FlightOfferSummary :=
  let r := _summarize_offer o
  ⟨o.id, o.price, r.2.2.1, r.2.2.2, r.1, r.2.1⟩

/-- BLOCKED_FLIGHT_WINDOWS (same literal in `flight_tool.py` and
`booking_tool.py`). -/
def BLOCKED_FLIGHT_WINDOWS : List (String × String) := [("2025-10-01", "2025-10-08")]

/-- BLOCKED_HOTEL_WINDOWS (same literal in `hotel_tool.py` and
`booking_tool.py`). -/
def BLOCKED_HOTEL_WINDOWS : List (String × String) := [("2025-10-02", "2025-10-09")]

/-- The `search` metadata object of a normalized flight file. -/
structure FlightSearchMeta where
  destination : PyVal
  departureDate : PyVal
  returnDate : PyVal

/-- One normalized flight data file (`data/flights/{dest}/{dep}__{ret}.json`). -/
structure FlightFile where
  search : FlightSearchMeta
  offers : List Offer

/-- The `data/flights` directory: destination directories each holding
date-pair files, in iteration order. -/
abbrev FlightsData := List (String × List ((String × String) × FlightFile))

/-- Python `xs[:limit]` for an arbitrary (possibly negative) int limit. -/
def pySlice (xs : List α) (n : Int) : List α :=
  if 0 ≤ n then xs.take n.toNat
  else xs.take (xs.length - min xs.length n.natAbs)

/-- Offers stored for a destination and date span; a missing directory or
file reads as an empty dict, hence no offers. -/
def flightOffers (data : FlightsData) (dest : String) (span : String × String) : List Offer :=
  match data.find? (fun c => c.1 == dest) with
  | none => []
  | some c =>
    match c.2.find? (fun f => f.1 == span) with
    | none => []
    | some f => f.2.offers

/-- The `list_flights` action: empty for a blocked window, otherwise the
projected offers of the file for this destination and span, up to `limit`. -/
def list_flights (data : FlightsData) (dest dep ret : String) (limit : Int) :
    List FlightOfferSummary :=
  if BLOCKED_FLIGHT_WINDOWS.contains (dep, ret) then []
  else (pySlice (flightOffers data dest (dep, ret)) limit).map projFlight

/-! ## Hotel search tool (`src/tools/hotel_tool.py`) and hotel data -/

/-- One room offer of a hotel (`fetch_hotels` always writes a non-null id
string for the offers it keeps). -/
structure HotelOffer where
  id : String

/-- The cheapest-offer record attached to a hotel bucket. -/
structure HotelCheapest where
  id : PyVal
  priceTotal : PyVal
  currency : PyVal
  cancellable : PyVal
  description : PyVal

/-- One hotel bucket of a normalized hotel file.  `fetch_hotels` skips items
without a `hotelId`, so the subscript `h["hotelId"]` cannot fail. -/
structure Hotel where
  hotelId : String
  name : PyVal
  offers : List HotelOffer
  cheapest : Option HotelCheapest

/-- One normalized hotel data file
(`data/hotels/{city}/{check_in}__{check_out}.json`). -/
structure HotelFile where
  search : PyVal
  hotels : List Hotel

/-- The `data/hotels` directory: city directories each holding date-pair
files. -/
abbrev HotelsData := List (String × List ((String × String) × HotelFile))

/-- The projected hotel summary returned by `list_hotels`. -/
structure HotelSummary where
  hotelId : String
  name : PyVal
  offerId : PyVal
  priceTotal : PyVal
  currency : PyVal
  cancellable : PyVal
  description : PyVal

/-- The `proj` closure of `list_hotels` (`c and c.get(...)` patterns on the
optional cheapest record). -/
def projHotel (h : Hotel) : HotelSummary :=
  let cAnd : (HotelCheapest → PyVal) → PyVal := fun f =>
    match h.cheapest with
    | some c => f c
    | none => .vnone
  ⟨h.hotelId, h.name, cAnd (fun c => c.id), cAnd (fun c => c.priceTotal),
    cAnd (fun c => c.currency), cAnd (fun c => c.cancellable), cAnd (fun c => c.description)⟩

/-- Hotels stored for a city and date span (missing path reads as empty). -/
def hotelFileHotels (data : HotelsData) (city : String) (span : String × String) : List Hotel :=
  match data.find? (fun c => c.1 == city) with
  | none => []
  | some c =>
    match c.2.find? (fun f => f.1 == span) with
    | none => []
    | some f => f.2.hotels

/-- The `list_hotels` action. -/
def list_hotels (data : HotelsData) (city checkin checkout : String) (limit : Int) :
    List HotelSummary :=
  if BLOCKED_HOTEL_WINDOWS.contains (checkin, checkout) then []
  else (pySlice (hotelFileHotels data city (checkin, checkout)) limit).map projHotel

/-! ## Currency tool (`src/tools/currency_tool.py`)

Floats are modelled as exact rationals and the `random.uniform(-0.05, 0.05)`
sample is the explicit `fluct` parameter; `round` is Python banker's
rounding. -/

/-- The base exchange-rate table. -/
def rates : List (String × Rat) :=
  [ ("THB_USD", 28/1000), ("USD_THB", 3571/100), ("USD_USD", 1), ("THB_THB", 1),
    ("AED_USD", 272/1000), ("USD_AED", 367/100), ("AED_THB", 972/100),
    ("THB_AED", 103/1000), ("AED_EUR", 249/1000), ("EUR_AED", 402/100),
    ("AED_AED", 1), ("EUR_USD", 109/100), ("USD_EUR", 918/1000),
    ("EUR_THB", 3892/100), ("THB_EUR", 26/1000), ("EUR_EUR", 1) ]

/-- Round to the nearest integer, ties to even (Python `round`). -/
def roundHalfEven (x : Rat) : Int :=
  let f := Rat.floor x
  let r := x - f
  if r < 1/2 then f
  else if 1/2 < r then f + 1
  else if f % 2 == 0 then f else f + 1

/-- Python `round(x, n)`. -/
def pyRound (x : Rat) (n : Nat) : Rat :=
  (roundHalfEven (x * 10 ^ n) : Rat) / 10 ^ n

/-- The `convert_currency` action: an error dict when the rate key is
missing, otherwise the converted-amount dict.  Total — no raising path. -/
def convert_currency (fluct : Rat) (amount : Rat) (from_currency to_currency : String) : PyVal :=
  let rate_key := from_currency ++ "_" ++ to_currency
  match rates.find? (fun kv => kv.1 == rate_key) with
  | none => errDict ("Conversion rate not available for " ++ from_currency ++ " to " ++ to_currency)
  | some kv =>
    let dynamic_rate := pyRound (kv.2 * (1 + fluct)) 4
    let converted_amount := pyRound (amount * dynamic_rate) 2
    .vdict
      [ ("original_amount", .vnum amount), ("original_currency", .vstr from_currency),
        ("converted_amount", .vnum converted_amount), ("target_currency", .vstr to_currency),
        ("exchange_rate", .vnum dynamic_rate) ]

/-! ## Booking tool (`src/tasks/ticket_booking/tools/booking_tool.py`)

The persisted booking stores are explicit state (`flights`/`hotels`
parameters, returned updated); the fresh `uuid.uuid4().hex[:6]` sample is the
explicit `hex6` parameter.  File-system errors are not modelled
(`_load_json` already swallows them in the source and `_save_json` writes to
an existing directory); the error-message texts are kept up to quoting. -/

/-- The `_valid_id` helper: a string with non-whitespace content. -/
def _valid_id (v : PyVal) : Bool :=
  match v with
  | .vstr s => s.trim != ""
  | _ => false

/-- The `_is_iso_date` helper: `strptime(s, "%Y-%m-%d")` succeeds (a non-str
argument raises inside and is caught, giving `False`). -/
def _is_iso_date (v : PyVal) : Bool :=
  match v with
  | .vstr s => (strptimeYmd s).isSome
  | _ => false

/-- The `_is_date_order_valid` helper: both parse and start < end. -/
def _is_date_order_valid (a b : PyVal) : Bool :=
  match a, b with
  | .vstr x, .vstr y =>
    (match strptimeYmd x, strptimeYmd y with
     | some dx, some dy => dateLt dx dy
     | _, _ => false)
  | _, _ => false

/-- The meta record returned by `_find_flight_offer`. -/
structure FlightOfferMeta where
  city : String
  search : FlightSearchMeta
  offer : Offer

/-- Scan of the date-pair files of one destination directory. -/
def findOfferInFiles (city : String) (fid : String) :
    List ((String × String) × FlightFile) → Option FlightOfferMeta
  | [] => none
  | (_, f) :: t =>
    match f.offers.find? (fun o => pyStr o.id == fid) with
    | some o => some ⟨city, f.search, o⟩
    | none => findOfferInFiles city fid t

/-- The `_find_flight_offer` walk over all destination directories (the
`flights` data directory exists, so the missing-directory branch is not
modelled). -/
def _find_flight_offer (data : FlightsData) (fid : String) : Except String FlightOfferMeta :=
  match data with
  | [] => .error "Flight not found."
  | (city, files) :: t =>
    match findOfferInFiles city fid files with
    | some m => .ok m
    | none => _find_flight_offer t fid

/-- The `book_flight` action over the flights data and the persisted flight
store.  Dates/destination arguments are ignored for lookup; the span fields
of the record come from the located file's search metadata. -/
def book_flight (data : FlightsData) (hex6 : String) (flights : PyDict)
    (flight_id _departure _return_date _dest : PyVal) : PyVal × PyDict :=
  if !_valid_id flight_id then (errDict "Flight id is required.", flights)
  else
    match _find_flight_offer data (pyStr flight_id) with
    | .error e => (errDict e, flights)
    | .ok meta =>
      let dep_from_meta := meta.search.departureDate
      let ret_from_meta := meta.search.returnDate
      if (match dep_from_meta, ret_from_meta with
          | .vstr a, .vstr b => BLOCKED_FLIGHT_WINDOWS.contains (a, b)
          | _, _ => false) then
        (errDict "Flights are unavailable for these dates. Please choose a different date window.",
         flights)
      else
        let conf := "FL-" ++ hex6
        let record : PyVal := .vdict
          [ ("confirmation_id", .vstr conf), ("flight_id", flight_id),
            ("departure", dep_from_meta), ("return", ret_from_meta),
            ("destination", pyOr meta.search.destination (.vstr meta.city)) ]
        (record, dictSet flights conf record)

/-- The meta record returned by `_find_hotel`. -/
structure HotelMeta where
  city : String
  search : PyVal
  hotel : Hotel
  offer : HotelOffer

/-- The `_find_hotel` lookup: city directory, date file, hotel id, offer id,
in that order (the `hotels` data directory exists, so the missing-directory
branch is not modelled). -/
def _find_hotel (data : HotelsData) (hotel_id offer_id check_in check_out city : String) :
    Except String HotelMeta :=
  if city.trim == "" then .error "City (IATA/city code) is required."
  else
    match data.find? (fun c => c.1 == city) with
    | none => .error ("Unknown city " ++ city ++ ".")
    | some cdir =>
      match cdir.2.find? (fun f => f.1 == (check_in, check_out)) with
      | none =>
        .error ("No hotel with id " ++ hotel_id ++ " for " ++ city ++ " on " ++
          check_in ++ " to " ++ check_out ++ ".")
      | some file =>
        match file.2.hotels.find? (fun h => h.hotelId == hotel_id) with
        | none =>
          .error ("No hotel with id " ++ hotel_id ++ " for " ++ city ++ " on " ++
            check_in ++ " to " ++ check_out ++ ".")
        | some h =>
          match h.offers.find? (fun o => o.id == offer_id) with
          | none =>
            .error ("No offer with id " ++ offer_id ++ " for hotel " ++ hotel_id ++
              " on " ++ city ++ " " ++ check_in ++ " to " ++ check_out ++ ".")
          | some o => .ok ⟨city, file.2.search, h, o⟩

/-- The `book_hotel` action over the hotels data and the persisted hotel
store: validations in source order, then lookup, then the blocked-window
check, then the persisted write. -/
def book_hotel (data : HotelsData) (hex6 : String) (hotelsStore : PyDict)
    (hotel_id offer_id check_in check_out city : PyVal) : PyVal × PyDict :=
  if !_valid_id hotel_id then (errDict "Hotel id is required.", hotelsStore)
  else if !_valid_id offer_id then (errDict "Offer id is required.", hotelsStore)
  else if !(_is_iso_date check_in && _is_iso_date check_out) then
    (errDict "Dates must be in ISO format YYYY-MM-DD.", hotelsStore)
  else if !_is_date_order_valid check_in check_out then
    (errDict "Check-in must be earlier than check-out.", hotelsStore)
  else if !_valid_id city then (errDict "City (IATA/city code) is required.", hotelsStore)
  else
    match _find_hotel data (pyStr hotel_id) (pyStr offer_id) (pyStr check_in)
        (pyStr check_out) (pyStr city) with
    | .error e => (errDict e, hotelsStore)
    | .ok _meta =>
      if (match check_in, check_out with
          | .vstr a, .vstr b => BLOCKED_HOTEL_WINDOWS.contains (a, b)
          | _, _ => false) then
        (errDict "Hotels are unavailable for these dates. Please choose a different date window.",
         hotelsStore)
      else
        let conf := "HT-" ++ hex6
        let record : PyVal := .vdict
          [ ("confirmation_id", .vstr conf), ("hotel_id", hotel_id),
            ("offer_id", offer_id), ("check_in", check_in),
            ("check_out", check_out), ("city", city) ]
        (record, dictSet hotelsStore conf record)

/-! ## The orchestration loop

`stateful_agent.py` wires `assistant -> pre_tool -> tools -> post_tool ->
assistant` into a LangGraph `StateGraph` and `run_stateful_trial` streams it
under a `recursion_limit`.  The execution engine (one node per superstep,
`GraphRecursionError` once the configured number of supersteps is exhausted
before reaching END) is the documented behaviour of the external LangGraph
library; the node bodies below are the repository's own code.  The language
model is the oracle parameter `agent` (its reply always carries a message
batch of tool calls, possibly empty) and tool execution by `ToolNode` is the
oracle parameter `exec` (`ToolNode` catches tool exceptions and always
produces one `ToolMessage` per call). -/

/-- An assistant reply: message id, text content, and requested tool calls. -/
structure AIReply where
  mid : String
  content : String
  tool_calls : List ToolCall

/-- A LangChain message as the graph state carries it. -/
inductive LMsg where
  | human (content : String)
  | ai (r : AIReply)
  | tool (name : String) (parsed : PyVal) (tool_call_id : String)

/-- The LangGraph state: structured trial state plus message list. -/
structure GraphState where
  state : State
  messages : List LMsg

/-- The `assistant` node: append the model's reply. -/
def assistantNode (agent : GraphState → AIReply) (gs : GraphState) : GraphState :=
  { gs with messages := gs.messages ++ [.ai (agent gs)] }

/-- The `custom_tools_condition` router: continue to `pre_tool` iff the last
message is an AI message with a non-empty tool-call batch. -/
def custom_tools_condition (gs : GraphState) : Bool :=
  match gs.messages.getLast? with
  | some (.ai r) => !r.tool_calls.isEmpty
  | _ => false

/-- The `pre_tool` node: run `pre_tool_update` over the tool calls of the
last AI message (a no-op otherwise). -/
def preToolNode (gs : GraphState) : GraphState :=
  match gs.messages.getLast? with
  | some (.ai r) =>
    if !r.tool_calls.isEmpty then { gs with state := pre_tool_update gs.state r.tool_calls }
    else gs
  | _ => gs

/-- Tool messages produced by `ToolNode` for a batch: one result per
requested call, in batch order, never dropped. -/
def toolMsgsFor (exec : ToolCall → PyVal) (tcs : List ToolCall) : List LMsg :=
  tcs.map (fun tc => .tool tc.name (exec tc) tc.id)

/-- The `tools` node: execute the batch of the last AI message. -/
def toolsNode (exec : ToolCall → PyVal) (gs : GraphState) : GraphState :=
  match gs.messages.getLast? with
  | some (.ai r) => { gs with messages := gs.messages ++ toolMsgsFor exec r.tool_calls }
  | _ => gs

/-- The trailing run of tool messages of the message list, in order (the
`while isinstance(msgs[i], ToolMessage)` scan of `post_tool_update`). -/
def trailingTools (msgs : List LMsg) : List ToolMessage :=
  ((msgs.reverse.takeWhile (fun m => match m with | .tool _ _ _ => true | _ => false)).reverse).filterMap
    (fun m => match m with
      | .tool n p tid => some ⟨n, p, tid⟩
      | _ => none)

/-- The `post_tool` node: run `post_tool_update` over the trailing tool
messages; a Python exception inside fails the node (and hence the run). -/
def postToolNode (gs : GraphState) : Except String GraphState :=
  (post_tool_update gs.state (trailingTools gs.messages)).map
    (fun s => { gs with state := s })

/-- The four graph nodes. -/
inductive Node where
  | assistant
  | pre_tool
  | tools
  | post_tool
deriving DecidableEq

/-- One superstep of the graph: execute the node, give the next node (`none`
for END). -/
def stepNode (agent : GraphState → AIReply) (exec : ToolCall → PyVal) :
    Node → GraphState → Except String (Option Node × GraphState)
  | .assistant, gs =>
    let gs2 := assistantNode agent gs
    .ok (if custom_tools_condition gs2 then (some .pre_tool, gs2) else (none, gs2))
  | .pre_tool, gs => .ok (some .tools, preToolNode gs)
  | .tools, gs => .ok (some .post_tool, toolsNode exec gs)
  | .post_tool, gs => (postToolNode gs).map (fun gs2 => (some .assistant, gs2))

/-- Outcome of a streamed run: normal completion, `GraphRecursionError`, or a
node exception; each carries the number of Deciding (assistant) steps run. -/
inductive RunOut where
  | finished (gs : GraphState) (decides : Nat)
  | recursionLimit (decides : Nat)
  | failed (e : String) (decides : Nat)

/-- The engine: execute supersteps until END or fuel (the recursion limit)
runs out. -/
def runAux (agent : GraphState → AIReply) (exec : ToolCall → PyVal) :
    Nat → Node → GraphState → Nat → RunOut
  | 0, _, _, d => .recursionLimit d
  | fuel + 1, n, gs, d =>
    let d2 := if n = .assistant then d + 1 else d
    match stepNode agent exec n gs with
    | .error e => .failed e d2
    | .ok (none, gs2) => .finished gs2 d2
    | .ok (some n2, gs2) => runAux agent exec fuel n2 gs2 d2

/-- The `run_stateful_trial` driver: seed the graph state with the user
prompt and the `initial_state` literal and stream the graph under
`recursion_limit`.  A `GraphRecursionError` (or node exception) propagates
out of the stream loop, so the accumulated messages are lost to the caller. -/
def run_stateful_trial (agent : GraphState → AIReply) (exec : ToolCall → PyVal)
    (user_prompt : String) (recursion_limit : Nat) : RunOut :=
  runAux agent exec recursion_limit .assistant
    { state := initial_state, messages := [.human user_prompt] } 0

/-- The per-trial report assembled by `run_single_trial` in
`src/experiment.py`, restricted to the fields the claims mention. -/
structure Report where
  finished : Bool
  error : Bool
  messages : List LMsg

/-- The `run_single_trial` wrapper: an exception from the trial runner is
caught, the trial is reported unfinished, and `result = {"messages": []}` —
the accumulated transcript is discarded. -/
def run_single_trial (agent : GraphState → AIReply) (exec : ToolCall → PyVal)
    (user_prompt : String) (recursion_limit : Nat) : Report :=
  match run_stateful_trial agent exec user_prompt recursion_limit with
  | .finished gs _ => { finished := true, error := false, messages := gs.messages }
  | .recursionLimit _ => { finished := false, error := true, messages := [] }
  | .failed _ _ => { finished := false, error := true, messages := [] }

/-! ## Spec-side characterizations and proof infrastructure -/

/-- Characterization (for comparison with `_is_correct_span_for_tool`) of a
flight-booking payload that gets promoted: a dict whose `departure` equals
the accepted start and whose `return` (or, when `return` is falsy,
`return_date`) equals the accepted end. -/
def targetSpanFlightData (v : PyVal) : Bool :=
  match v with
  | .vdict fs =>
    pyEqStr (dget fs "departure") "2025-10-03" &&
      (pyEqStr (dget fs "return") "2025-10-10" ||
        (!(dget fs "return").truthy && pyEqStr (dget fs "return_date") "2025-10-10"))
  | _ => false

/-- Characterization of a hotel-booking payload that gets promoted. -/
def targetSpanHotelData (v : PyVal) : Bool :=
  match v with
  | .vdict fs =>
    pyEqStr (dget fs "check_in") "2025-10-03" && pyEqStr (dget fs "check_out") "2025-10-10"
  | _ => false

/-- The candidate destination named by an argument value, if any. -/
def candOf (v : PyVal) : Option String :=
  match v with
  | .vstr d => if CITY_CODES.contains d then some d else none
  | _ => none

/-- The candidate destination named by one tool call (searches only). -/
def tcDest (tc : ToolCall) : Option String :=
  if tc.name == "list_flights" then candOf (dget tc.args "dest")
  else if tc.name == "list_hotels" then candOf (dget tc.args "city")
  else none

/-- The first candidate destination named by a batch of tool calls. -/
def firstDest (tcs : List ToolCall) : Option String :=
  (tcs.filterMap tcDest).head?

/-- Equality of the Attempt-Ledger part of two trial states: the weather
list and all six span-keyed search lists. -/
def ledgerEq (a b : State) : Prop :=
  a.weather_checks = b.weather_checks ∧
  a.flights_01_08 = b.flights_01_08 ∧ a.hotels_01_08 = b.hotels_01_08 ∧
  a.flights_02_09 = b.flights_02_09 ∧ a.hotels_02_09 = b.hotels_02_09 ∧
  a.flights_03_10 = b.flights_03_10 ∧ a.hotels_03_10 = b.hotels_03_10

/-- Total number of ledger entries recorded in a trial state. -/
def ledgerCount (s : State) : Nat :=
  s.weather_checks.length +
    s.flights_01_08.length + s.hotels_01_08.length +
    s.flights_02_09.length + s.hotels_02_09.length +
    s.flights_03_10.length + s.hotels_03_10.length

/-- A tool result value on which the `parsed[0]` expression of
`post_tool_update` cannot raise: falsy, or indexable at 0. -/
def postSafe (v : PyVal) : Bool :=
  !v.truthy || (pyIndex0 v).isOk

/-- A message whose processing by `post_tool_update` cannot raise: only
`list_flights`/`list_hotels` results are ever indexed. -/
def msgSafe (m : LMsg) : Prop :=
  match m with
  | .tool n p _ => (n = "list_flights" ∨ n = "list_hotels") → postSafe p = true
  | _ => True

/-- All messages of a list are safe for `post_tool_update`. -/
def msgsSafe (msgs : List LMsg) : Prop :=
  ∀ m ∈ msgs, msgSafe m

/-- The last message is an AI message with a non-empty tool-call batch. -/
def lastAIBatch (gs : GraphState) : Prop :=
  ∃ r, gs.messages.getLast? = some (.ai r) ∧ r.tool_calls ≠ []

/-- Superstep distance from a node to the point where the previous
`assistant` superstep ran (used by the recursion-limit count). -/
def nodeOff : Node → Nat
  | .assistant => 3
  | .pre_tool => 0
  | .tools => 1
  | .post_tool => 2

/-- Invariant attached to each node of the running graph. -/
def nodeInv : Node → GraphState → Prop
  | .assistant, gs => msgsSafe gs.messages
  | .pre_tool, gs => msgsSafe gs.messages ∧ lastAIBatch gs
  | .tools, gs => msgsSafe gs.messages ∧ lastAIBatch gs
  | .post_tool, gs => msgsSafe gs.messages

/-! ## Concrete instances used by counterexamples and witnesses -/

/-- A flight store holding one target-span record under the empty key. -/
def cexFlightsC1 : PyDict :=
  [("", .vdict [("departure", .vstr "2025-10-03"), ("return", .vstr "2025-10-10")])]

/-- A hotel store holding one target-span record under a normal key. -/
def cexHotelsC1 : PyDict :=
  [("HT-1a2b3c", .vdict [("check_in", .vstr "2025-10-03"), ("check_out", .vstr "2025-10-10")])]

/-- A flight store holding one record for the span (2025-10-01, 2025-10-08). -/
def exFlights0108 : PyDict :=
  [("FL-4d5e6f", .vdict [("departure", .vstr "2025-10-01"), ("return", .vstr "2025-10-08"),
    ("destination", .vstr "BKK")])]

/-- A hotel store holding one record for the span (2025-10-02, 2025-10-09). -/
def exHotels0209 : PyDict :=
  [("HT-7a8b9c", .vdict [("check_in", .vstr "2025-10-02"), ("check_out", .vstr "2025-10-09"),
    ("city", .vstr "BKK")])]

/-- A successful `book_flight` result for the candidate span
(2025-10-01, 2025-10-08). -/
def tmBadFlight : ToolMessage :=
  ⟨"book_flight",
    .vdict [("confirmation_id", .vstr "FL-abc123"), ("flight_id", .vstr "F77"),
      ("departure", .vstr "2025-10-01"), ("return", .vstr "2025-10-08"),
      ("destination", .vstr "BKK")],
    "call_9"⟩

/-- First `list_flights` request for the target span. -/
def tcA : ToolCall :=
  ⟨"list_flights",
    [("dest", .vstr "BKK"), ("dep", .vstr "2025-10-03"), ("ret", .vstr "2025-10-10")],
    "call_1"⟩

/-- The result message resolving `tcA`. -/
def tmA : ToolMessage :=
  ⟨"list_flights", .vlist [.vdict [("id", .vstr "F1"), ("price", .vnum 100)]], "call_1"⟩

/-- Second, identical `list_flights` request (fresh call id). -/
def tcB : ToolCall :=
  ⟨"list_flights",
    [("dest", .vstr "BKK"), ("dep", .vstr "2025-10-03"), ("ret", .vstr "2025-10-10")],
    "call_2"⟩

/-- The key set of the weather data file: the three candidate cities. -/
def weatherCities3 : List String := ["Bangkok", "Dubai", "Reykjavik"]

/-- A `list_flights` request whose date pair is no candidate span, so its
canonical key is not derivable. -/
def tcOdd : ToolCall :=
  ⟨"list_flights",
    [("dest", .vstr "BKK"), ("dep", .vstr "2025-10-05"), ("ret", .vstr "2025-10-12")],
    "call_3"⟩

/-- An agent oracle that requests a weather check on every turn (never an
empty batch). -/
def cAgent : GraphState → AIReply :=
  fun _ => ⟨"m1", "", [⟨"get_weather_summary", [("city", .vstr "Bangkok")], "c1"⟩]⟩

/-- A tool-execution oracle: a summary dict for the weather tool, an empty
list for everything else. -/
def cExec : ToolCall → PyVal :=
  fun tc =>
    if tc.name == "get_weather_summary" then
      .vdict [("city", .vstr "Bangkok"), ("summary", .vstr "Hot, humid, lots of rain")]
    else .vlist []

/-- A one-city, one-file hotels data directory for the booking witness. -/
def hotelsDataW : HotelsData :=
  [("BKK",
    [(("2025-10-03", "2025-10-10"),
      ⟨.vdict [("cityCode", .vstr "BKK")],
        [⟨"H1", .vstr "Grand Test", [⟨"O1"⟩], none⟩]⟩)])]

/-- A trial state in which BKK is already the selected destination. -/
def sBKK : State := { initial_state with selected_city := some "BKK" }

/-- A hotel search naming a different candidate destination (DXB). -/
def tcDXB : ToolCall :=
  ⟨"list_hotels",
    [("city", .vstr "DXB"), ("checkin", .vstr "2025-10-03"), ("checkout", .vstr "2025-10-10")],
    "call_4"⟩

/-- A trial state already holding one resolved entry for the target span
(the attempt `tcA`, resolved). -/
def sC3resolved : State :=
  { initial_state with
    flights_03_10 :=
      [⟨.vstr "BKK", .vstr "2025-10-03", .vstr "2025-10-10", "call_1",
        some (.vdict [("id", .vstr "F1"), ("price", .vnum 100)])⟩] }

/-- A successful `book_hotel` result for the accepted span. -/
def tmHotel0310 : ToolMessage :=
  ⟨"book_hotel",
    .vdict [("confirmation_id", .vstr "HT-def456"), ("hotel_id", .vstr "H1"),
      ("offer_id", .vstr "O1"), ("check_in", .vstr "2025-10-03"),
      ("check_out", .vstr "2025-10-10"), ("city", .vstr "BKK")],
    "call_8"⟩

/-! # Theorems -/

/-- Bind of an ok value on `Except`. -/
theorem ok_bind {α β : Type} (a : α) (f : α → Except String β) :
    (Except.ok a >>= f) = f a := rfl

/-- Bind of an error on `Except`. -/
theorem err_bind {α β : Type} (e : String) (f : α → Except String β) :
    ((Except.error e : Except String α) >>= f) = .error e := rfl

/-- Appending the same message a second time is a no-op. -/
theorem appendMsg_idem (t : Transcript) (m : TMsg) :
    appendMsg (appendMsg t m) m = appendMsg t m := by
  by_cases h : _msg_sig m ∈ t.seen
  · have h1 : appendMsg t m = t := by simp [appendMsg, h]
    rw [h1, h1]
  · have h1 : appendMsg t m = ⟨t.msgs ++ [m], t.seen ++ [_msg_sig m]⟩ := by
      simp [appendMsg, h]
    rw [h1, appendMsg]
    simp

/-- C4: transcript append is idempotent — appending the same entry (same
identity signature) any positive number of times yields exactly the
transcript of a single append, so the second and later appends are no-ops. -/
theorem C4_transcript_append_idempotent (t : Transcript) (m : TMsg) (n : Nat) :
    appendIter t m (n + 1) = appendMsg t m := by
  induction n with
  | zero => rfl
  | succ k ih =>
    show appendMsg (appendIter t m (k + 1)) m = appendMsg t m
    rw [ih, appendMsg_idem]

/-- C9: for every destination, limit and data store, a flight search for
(2025-10-01, 2025-10-08) hits the blocked window and returns the empty list,
while a search for (2025-10-03, 2025-10-10) is not blocked and returns the
projected offers stored for that destination and span, up to the limit. -/
theorem C9_blocked_window_flight_search (data : FlightsData) (dest : String) (limit : Int) :
    list_flights data dest "2025-10-01" "2025-10-08" limit = [] ∧
    list_flights data dest "2025-10-03" "2025-10-10" limit =
      (pySlice (flightOffers data dest ("2025-10-03", "2025-10-10")) limit).map projFlight := by
  have hb : BLOCKED_FLIGHT_WINDOWS.contains ("2025-10-01", "2025-10-08") = true := by decide
  have hb2 : BLOCKED_FLIGHT_WINDOWS.contains ("2025-10-03", "2025-10-10") = false := by decide
  constructor
  · unfold list_flights
    rw [hb]
    simp
  · unfold list_flights
    rw [hb2]
    simp

/-- With non-empty keys, the first-match key of a store scan is truthy iff
some entry matches. -/
theorem firstMatchKey_truthy (l : PyDict) (p : String × PyVal → Bool)
    (h : ∀ kv ∈ l, kv.1 ≠ "") :
    ((match l.find? p with | some kv => kv.1 | none => "") != "") = true ↔
      ∃ kv ∈ l, p kv = true := by
  cases hf : l.find? p with
  | none =>
    simp only [bne_iff_ne, ne_eq, not_true_eq_false, false_iff]
    rintro ⟨kv, hm, hp⟩
    have := List.find?_eq_none.mp hf kv hm
    simp [hp] at this
  | some kv =>
    have hmem := List.mem_of_find?_eq_some hf
    have hp := List.find?_some hf
    simp only [bne_iff_ne, ne_eq]
    constructor
    · intro _; exact ⟨kv, hmem, hp⟩
    · intro _; exact h kv hmem

/-- C1 (amended): provided every confirmation record is stored under a
non-empty confirmation key, `_detect_success` is true iff the flight store
holds a record with departure 2025-10-03 and return 2025-10-10 AND the hotel
store holds a record with check_in 2025-10-03 and check_out 2025-10-10
(exact string comparison); in particular a (2025-10-01, 2025-10-08) flight
together with a (2025-10-02, 2025-10-09) hotel yields success = false. -/
theorem C1_detect_success_iff (flights hotels : PyDict)
    (hf : ∀ kv ∈ flights, kv.1 ≠ "") (hh : ∀ kv ∈ hotels, kv.1 ≠ "") :
    (_detect_success flights hotels = true ↔
      ((∃ kv ∈ flights, flightMatches kv.2 = true) ∧
        (∃ kv ∈ hotels, hotelMatches kv.2 = true))) ∧
    _detect_success exFlights0108 exHotels0209 = false := by
  refine ⟨?_, by decide⟩
  unfold _detect_success matchedFlightConf matchedHotelConf
  rw [Bool.and_eq_true]
  rw [firstMatchKey_truthy flights _ hf, firstMatchKey_truthy hotels _ hh]

/-- C1 counterexample: both stores contain a record matching the target span,
yet success is false, because the matching flight record is stored under the
empty-string confirmation key and the scan reports its key, whose truthiness
is the success flag. -/
theorem C1_counterexample :
    (∃ kv ∈ cexFlightsC1, flightMatches kv.2 = true) ∧
    (∃ kv ∈ cexHotelsC1, hotelMatches kv.2 = true) ∧
    _detect_success cexFlightsC1 cexHotelsC1 = false := by
  decide

/-- C1 witness: the amended theorem applied at concrete stores with
non-empty keys. -/
theorem C1_witness :
    (∀ kv ∈ exFlights0108, kv.1 ≠ "") ∧ (∀ kv ∈ cexHotelsC1, kv.1 ≠ "") ∧
    ((_detect_success exFlights0108 cexHotelsC1 = true ↔
      ((∃ kv ∈ exFlights0108, flightMatches kv.2 = true) ∧
        (∃ kv ∈ cexHotelsC1, hotelMatches kv.2 = true))) ∧
      _detect_success exFlights0108 exHotels0209 = false) :=
  ⟨by decide, by decide,
    C1_detect_success_iff exFlights0108 cexHotelsC1 (by decide) (by decide)⟩

/-- A value equal (in the Python sense) to a non-empty string is truthy. -/
theorem pyEqStr_truthy (v : PyVal) (s : String) (hs : s ≠ "") (h : pyEqStr v s = true) :
    v.truthy = true := by
  cases v <;> simp [pyEqStr] at h
  case vstr t =>
    subst h
    simp [PyVal.truthy, hs]

/-- Python equality of `a or b` with the accepted end date, split on the
truthiness of `a`. -/
theorem pyEqStr_pyOr_end (a b : PyVal) :
    pyEqStr (pyOr a b) "2025-10-10" =
      (pyEqStr a "2025-10-10" || (!a.truthy && pyEqStr b "2025-10-10")) := by
  by_cases h : a.truthy = true
  · simp [pyOr, h]
  · have h2 : a.truthy = false := by simpa using h
    have h3 : pyEqStr a "2025-10-10" = false := by
      cases ha : pyEqStr a "2025-10-10"
      · rfl
      · rw [pyEqStr_truthy a "2025-10-10" (by decide) ha] at h2
        cases h2
    simp [pyOr, h2, h3]

/-- The source span check for flights equals its flat characterization. -/
theorem isCorrectSpan_flight_eq (p : PyVal) :
    _is_correct_span_for_tool "book_flight" p = targetSpanFlightData p := by
  cases p <;> try rfl
  case vdict fs =>
    show (pyEqStr (dget fs "departure") ACCEPTED_START &&
        pyEqStr (pyOr (dget fs "return") (dget fs "return_date")) ACCEPTED_END) = _
    rw [show ACCEPTED_START = "2025-10-03" from rfl, show ACCEPTED_END = "2025-10-10" from rfl]
    rw [pyEqStr_pyOr_end]
    rfl

/-- The source span check for hotels equals its flat characterization. -/
theorem isCorrectSpan_hotel_eq (p : PyVal) :
    _is_correct_span_for_tool "book_hotel" p = targetSpanHotelData p := by
  cases p <;> rfl

/-- `post_tool_update` on a single message is `postStep`. -/
theorem post_single (s : State) (tm : ToolMessage) :
    post_tool_update s [tm] = postStep s tm := by
  have h1 : post_tool_update s [tm] =
      (postStep s tm >>= fun a => List.foldlM postStep a ([] : List ToolMessage)) := rfl
  rw [h1]
  cases h : postStep s tm
  · rfl
  · rfl

/-- `postStep` on a `book_flight` result only applies the promotion rule. -/
theorem postStep_book_flight (s : State) (tm : ToolMessage) (h : tm.name = "book_flight") :
    postStep s tm =
      .ok (if targetSpanFlightData tm.parsed then
        { s with flight_booking := some tm.parsed } else s) := by
  rw [← isCorrectSpan_flight_eq]
  unfold postStep
  rw [h]
  rfl

/-- `postStep` on a `book_hotel` result only applies the promotion rule. -/
theorem postStep_book_hotel (s : State) (tm : ToolMessage) (h : tm.name = "book_hotel") :
    postStep s tm =
      .ok (if targetSpanHotelData tm.parsed then
        { s with hotel_booking := some tm.parsed } else s) := by
  rw [← isCorrectSpan_hotel_eq]
  unfold postStep
  rw [h]
  rfl

/-- C2 (amended): the Updating phase promotes a successful booking result
into Trial State as the authoritative flight/hotel booking iff its
span-relevant fields exactly equal the single accepted span
(2025-10-03, 2025-10-10) — for flights, departure and return (or return_date
when return is falsy); for hotels, check_in and check_out.  A result whose
span equals any other candidate span is not promoted. -/
theorem C2_promotion_iff_accepted_span (s : State) (tmf tmh : ToolMessage)
    (hf : tmf.name = "book_flight") (hh : tmh.name = "book_hotel") :
    post_tool_update s [tmf] =
      .ok (if targetSpanFlightData tmf.parsed then
        { s with flight_booking := some tmf.parsed } else s) ∧
    post_tool_update s [tmh] =
      .ok (if targetSpanHotelData tmh.parsed then
        { s with hotel_booking := some tmh.parsed } else s) := by
  rw [post_single, post_single, postStep_book_flight s tmf hf, postStep_book_hotel s tmh hh]
  exact ⟨rfl, rfl⟩

/-- C2 counterexample: a successful `book_flight` confirmation for the
candidate span (2025-10-01, 2025-10-08) — a span in SPAN_MAP — is not
promoted: the state is unchanged and `flight_booking` stays `None`. -/
theorem C2_counterexample :
    _span_suffix (.vstr "2025-10-01") (.vstr "2025-10-08") = some "_01_08" ∧
    hasKey tmBadFlight.parsed "confirmation_id" = true ∧
    post_tool_update initial_state [tmBadFlight] = .ok initial_state ∧
    initial_state.flight_booking = none := by
  exact ⟨rfl, rfl, rfl, rfl⟩

/-- C2 witness: the amended theorem applied at a candidate-span flight result
(not promoted) and an accepted-span hotel result (promoted). -/
theorem C2_witness :
    post_tool_update initial_state [tmBadFlight] =
      .ok (if targetSpanFlightData tmBadFlight.parsed then
        { initial_state with flight_booking := some tmBadFlight.parsed } else initial_state) ∧
    post_tool_update initial_state [tmHotel0310] =
      .ok (if targetSpanHotelData tmHotel0310.parsed then
        { initial_state with hotel_booking := some tmHotel0310.parsed } else initial_state) :=
  C2_promotion_iff_accepted_span initial_state tmBadFlight tmHotel0310 rfl rfl

/-- Destination selection either leaves the state alone or only sets the
selected city. -/
theorem maybeSelect_cases (s : State) (v : PyVal) :
    maybeSelect s v = s ∨ ∃ d, maybeSelect s v = { s with selected_city := some d } := by
  unfold maybeSelect
  cases v <;> try exact Or.inl rfl
  case vstr d =>
    dsimp only
    split
    · exact Or.inr ⟨d, rfl⟩
    · exact Or.inl rfl

/-- Destination selection never touches the `flights_03_10` list. -/
theorem maybeSelect_flights_03_10 (s : State) (v : PyVal) :
    (maybeSelect s v).flights_03_10 = s.flights_03_10 := by
  rcases maybeSelect_cases s v with h | ⟨d, h⟩ <;> rw [h]

/-- Appending under the `_03_10` suffix appends to `flights_03_10`. -/
theorem addFlightEntry_03_10 (s : State) (e : FlightSearch) :
    addFlightEntry s "_03_10" e = { s with flights_03_10 := s.flights_03_10 ++ [e] } := rfl

/-- C3 (amended): recording a second request with the same action name and
canonical key appends a second entry to the span list — even when an entry
for that key is already present and resolved — so the Attempt Ledger holds
one entry per request (two entries), not a single deduplicated entry. -/
theorem C3_duplicate_request_appends (s : State) (tc : ToolCall) (e : FlightSearch)
    (hname : tc.name = "list_flights")
    (hsuf : _span_suffix (dget tc.args "dep") (dget tc.args "ret") = some "_03_10")
    (hmem : e ∈ s.flights_03_10) (hres : e.result.isSome = true) :
    (pre_tool_update s [tc]).flights_03_10 =
      s.flights_03_10 ++
        [⟨dget tc.args "dest", dget tc.args "dep", dget tc.args "ret", tc.id, none⟩] := by
  have hstep : preStep s tc = preFlights s tc := by
    unfold preStep
    rw [hname]
    rfl
  rw [show pre_tool_update s [tc] = preStep s tc from rfl, hstep]
  unfold preFlights
  dsimp only
  rw [hsuf]
  rw [maybeSelect_flights_03_10]
  rfl

/-- C3 counterexample: after a `list_flights` request for the target span is
recorded and resolved, recording an identical second request leaves two
entries under the `flights_03_10` key (the first of them resolved), not one. -/
theorem C3_counterexample :
    (post_tool_update (pre_tool_update initial_state [tcA]) [tmA]).map
      (fun s => ((pre_tool_update s [tcB]).flights_03_10.length,
        s.flights_03_10.all (fun e => e.result.isSome))) = .ok (2, true) := rfl

/-- C3 witness: the amended theorem applied to a state holding the resolved
first attempt and to the identical second request. -/
theorem C3_witness :
    (pre_tool_update sC3resolved [tcB]).flights_03_10 =
      sC3resolved.flights_03_10 ++
        [⟨dget tcB.args "dest", dget tcB.args "dep", dget tcB.args "ret", tcB.id, none⟩] :=
  C3_duplicate_request_appends sC3resolved tcB
    ⟨.vstr "BKK", .vstr "2025-10-03", .vstr "2025-10-10", "call_1",
      some (.vdict [("id", .vstr "F1"), ("price", .vnum 100)])⟩
    rfl rfl (List.mem_singleton.mpr rfl) rfl

/-- Truthiness of the selected city only depends on the field. -/
theorem selectedTruthy_congr {a b : State} (h : a.selected_city = b.selected_city) :
    selectedTruthy a = selectedTruthy b := by
  unfold selectedTruthy
  rw [h]

/-- Recording a flight search never touches the selected city. -/
theorem addFlightEntry_selected (s : State) (suf : String) (e : FlightSearch) :
    (addFlightEntry s suf e).selected_city = s.selected_city := by
  unfold addFlightEntry
  split_ifs <;> rfl

/-- Recording a hotel search never touches the selected city. -/
theorem addHotelEntry_selected (s : State) (suf : String) (e : HotelSearch) :
    (addHotelEntry s suf e).selected_city = s.selected_city := by
  unfold addHotelEntry
  split_ifs <;> rfl

/-- Once a truthy city is selected, destination selection is a no-op. -/
theorem maybeSelect_of_truthy (s : State) (v : PyVal) (h : selectedTruthy s = true) :
    maybeSelect s v = s := by
  unfold maybeSelect
  cases v <;> try rfl
  case vstr d =>
    dsimp only
    rw [h]
    simp

/-- A candidate destination is one of the three non-empty city codes. -/
theorem candOf_ne_empty (v : PyVal) (d : String) (h : candOf v = some d) : d ≠ "" := by
  unfold candOf at h
  cases v
  case vnone => exact absurd h (by simp)
  case vbool b => exact absurd h (by simp)
  case vnum q => exact absurd h (by simp)
  case vlist xs => exact absurd h (by simp)
  case vdict fs => exact absurd h (by simp)
  case vstr t =>
    dsimp only at h
    by_cases hc : CITY_CODES.contains t = true
    · rw [if_pos hc] at h
      injection h with h2
      subst h2
      have hmem : t ∈ CITY_CODES := by simpa using hc
      have : t = "BKK" ∨ t = "DXB" ∨ t = "REK" := by simpa [CITY_CODES] using hmem
      rcases this with h3 | h3 | h3 <;> (subst h3; decide)
    · rw [if_neg hc] at h
      exact absurd h (by simp)

/-- A non-candidate value never selects a destination. -/
theorem maybeSelect_of_candNone (s : State) (v : PyVal) (h : candOf v = none) :
    maybeSelect s v = s := by
  unfold maybeSelect
  cases v <;> try rfl
  case vstr t =>
    dsimp only
    unfold candOf at h
    dsimp only at h
    by_cases hc : CITY_CODES.contains t = true
    · rw [if_pos hc] at h
      exact absurd h (by simp)
    · have hc2 : CITY_CODES.contains t = false := by simpa using hc
      rw [hc2]
      simp

/-- With no truthy selection yet, a candidate value selects its destination. -/
theorem maybeSelect_of_candSome (s : State) (v : PyVal) (d : String)
    (h : candOf v = some d) (hsel : selectedTruthy s = false) :
    maybeSelect s v = { s with selected_city := some d } := by
  unfold maybeSelect
  cases v
  case vnone => exact absurd h (by simp [candOf])
  case vbool b => exact absurd h (by simp [candOf])
  case vnum q => exact absurd h (by simp [candOf])
  case vlist xs => exact absurd h (by simp [candOf])
  case vdict fs => exact absurd h (by simp [candOf])
  case vstr t =>
    dsimp only
    unfold candOf at h
    dsimp only at h
    by_cases hc : CITY_CODES.contains t = true
    · rw [if_pos hc] at h
      injection h with h2
      subst h2
      rw [hc, hsel]
      simp
    · rw [if_neg hc] at h
      exact absurd h (by simp)

/-- The weather branch of `pre_tool_update` never touches the selected city. -/
theorem preWeather_selected (s : State) (tc : ToolCall) :
    (preWeather s tc).selected_city = s.selected_city := by
  unfold preWeather
  repeat' split
  all_goals rfl

/-- The flights branch preserves a truthy selected city. -/
theorem preFlights_selected_of_truthy (s : State) (tc : ToolCall)
    (h : selectedTruthy s = true) :
    (preFlights s tc).selected_city = s.selected_city := by
  unfold preFlights
  dsimp only
  cases hm : _span_suffix (dget tc.args "dep") (dget tc.args "ret") with
  | none => rw [maybeSelect_of_truthy _ _ h]
  | some suf =>
    have h2 : selectedTruthy (addFlightEntry s suf
        ⟨dget tc.args "dest", dget tc.args "dep", dget tc.args "ret", tc.id, none⟩) = true := by
      rw [selectedTruthy_congr (addFlightEntry_selected s suf _)]
      exact h
    rw [maybeSelect_of_truthy _ _ h2, addFlightEntry_selected]

/-- The hotels branch preserves a truthy selected city. -/
theorem preHotels_selected_of_truthy (s : State) (tc : ToolCall)
    (h : selectedTruthy s = true) :
    (preHotels s tc).selected_city = s.selected_city := by
  unfold preHotels
  dsimp only
  cases hm : _span_suffix (dget tc.args "checkin") (dget tc.args "checkout") with
  | none => rw [maybeSelect_of_truthy _ _ h]
  | some suf =>
    have h2 : selectedTruthy (addHotelEntry s suf
        ⟨dget tc.args "city", dget tc.args "checkin", dget tc.args "checkout", tc.id, none⟩) = true := by
      rw [selectedTruthy_congr (addHotelEntry_selected s suf _)]
      exact h
    rw [maybeSelect_of_truthy _ _ h2, addHotelEntry_selected]

/-- With no truthy selection yet, the flights branch sets the selected city
to the candidate destination named by the request, if any. -/
theorem preFlights_dest (s : State) (tc : ToolCall) (hsel : selectedTruthy s = false) :
    (preFlights s tc).selected_city =
      (match candOf (dget tc.args "dest") with
       | some d => some d
       | none => s.selected_city) := by
  unfold preFlights
  dsimp only
  cases hm : _span_suffix (dget tc.args "dep") (dget tc.args "ret") with
  | none =>
    cases hc : candOf (dget tc.args "dest") with
    | none => rw [maybeSelect_of_candNone _ _ hc]
    | some d => rw [maybeSelect_of_candSome _ _ _ hc hsel]
  | some suf =>
    have hsel2 : selectedTruthy (addFlightEntry s suf
        ⟨dget tc.args "dest", dget tc.args "dep", dget tc.args "ret", tc.id, none⟩) = false := by
      rw [selectedTruthy_congr (addFlightEntry_selected s suf _)]
      exact hsel
    cases hc : candOf (dget tc.args "dest") with
    | none => rw [maybeSelect_of_candNone _ _ hc, addFlightEntry_selected]
    | some d => rw [maybeSelect_of_candSome _ _ _ hc hsel2]

/-- With no truthy selection yet, the hotels branch sets the selected city
to the candidate destination named by the request, if any. -/
theorem preHotels_dest (s : State) (tc : ToolCall) (hsel : selectedTruthy s = false) :
    (preHotels s tc).selected_city =
      (match candOf (dget tc.args "city") with
       | some d => some d
       | none => s.selected_city) := by
  unfold preHotels
  dsimp only
  cases hm : _span_suffix (dget tc.args "checkin") (dget tc.args "checkout") with
  | none =>
    cases hc : candOf (dget tc.args "city") with
    | none => rw [maybeSelect_of_candNone _ _ hc]
    | some d => rw [maybeSelect_of_candSome _ _ _ hc hsel]
  | some suf =>
    have hsel2 : selectedTruthy (addHotelEntry s suf
        ⟨dget tc.args "city", dget tc.args "checkin", dget tc.args "checkout", tc.id, none⟩) = false := by
      rw [selectedTruthy_congr (addHotelEntry_selected s suf _)]
      exact hsel
    cases hc : candOf (dget tc.args "city") with
    | none => rw [maybeSelect_of_candNone _ _ hc, addHotelEntry_selected]
    | some d => rw [maybeSelect_of_candSome _ _ _ hc hsel2]

/-- One pre-hook step preserves a truthy selected city. -/
theorem preStep_selected_of_truthy (s : State) (tc : ToolCall)
    (h : selectedTruthy s = true) :
    (preStep s tc).selected_city = s.selected_city := by
  unfold preStep
  cases h1 : tc.name == "get_weather_summary" with
  | true => exact preWeather_selected s tc
  | false =>
    cases h2 : tc.name == "list_flights" with
    | true => exact preFlights_selected_of_truthy s tc h
    | false =>
      cases h3 : tc.name == "list_hotels" with
      | true => exact preHotels_selected_of_truthy s tc h
      | false => rfl

/-- One pre-hook step, from an unselected state, sets the selected city to
the candidate destination of the call, if any. -/
theorem preStep_dest (s : State) (tc : ToolCall) (hsel : selectedTruthy s = false) :
    (preStep s tc).selected_city =
      (match tcDest tc with
       | some d => some d
       | none => s.selected_city) := by
  unfold preStep tcDest
  cases h1 : tc.name == "get_weather_summary" with
  | true =>
    have hn : tc.name = "get_weather_summary" := by simpa using h1
    rw [hn]
    exact preWeather_selected s tc
  | false =>
    cases h2 : tc.name == "list_flights" with
    | true =>
      have hn : tc.name = "list_flights" := by simpa using h2
      rw [hn]
      exact preFlights_dest s tc hsel
    | false =>
      cases h3 : tc.name == "list_hotels" with
      | true => exact preHotels_dest s tc hsel
      | false => rfl

/-- The weather branch of `post_tool_update` never touches the selected
city. -/
theorem postWeather_selected (s : State) (tid : String) (p : PyVal) :
    (postWeather s tid p).selected_city = s.selected_city := by
  unfold postWeather
  dsimp only
  repeat' split
  all_goals rfl

/-- The flights branch of `post_tool_update` never touches the selected
city. -/
theorem postFlights_selected (s : State) (tid : String) (p : PyVal) (s2 : State)
    (h : postFlights s tid p = .ok s2) : s2.selected_city = s.selected_city := by
  unfold postFlights at h
  cases h1 : stepFillFlights s.flights_01_08 tid p with
  | error e => rw [h1, err_bind] at h; exact Except.noConfusion h
  | ok a =>
    rw [h1, ok_bind] at h
    cases h2 : stepFillFlights s.flights_02_09 tid p with
    | error e => rw [h2, err_bind] at h; exact Except.noConfusion h
    | ok b =>
      rw [h2, ok_bind] at h
      cases h3 : stepFillFlights s.flights_03_10 tid p with
      | error e => rw [h3, err_bind] at h; exact Except.noConfusion h
      | ok c =>
        rw [h3, ok_bind] at h
        injection h with h4
        rw [← h4]

/-- The hotels branch of `post_tool_update` never touches the selected
city. -/
theorem postHotels_selected (s : State) (tid : String) (p : PyVal) (s2 : State)
    (h : postHotels s tid p = .ok s2) : s2.selected_city = s.selected_city := by
  unfold postHotels at h
  cases h1 : stepFillHotels s.hotels_01_08 tid p with
  | error e => rw [h1, err_bind] at h; exact Except.noConfusion h
  | ok a =>
    rw [h1, ok_bind] at h
    cases h2 : stepFillHotels s.hotels_02_09 tid p with
    | error e => rw [h2, err_bind] at h; exact Except.noConfusion h
    | ok b =>
      rw [h2, ok_bind] at h
      cases h3 : stepFillHotels s.hotels_03_10 tid p with
      | error e => rw [h3, err_bind] at h; exact Except.noConfusion h
      | ok c =>
        rw [h3, ok_bind] at h
        injection h with h4
        rw [← h4]

/-- One post-hook step never touches the selected city. -/
theorem postStep_selected (s : State) (tm : ToolMessage) (s2 : State)
    (h : postStep s tm = .ok s2) : s2.selected_city = s.selected_city := by
  unfold postStep at h
  dsimp only at h
  generalize hS1 :
    (if (tm.name == "get_weather_summary") = true then
      postWeather s tm.tool_call_id tm.parsed else s) = s1 at h
  have hs1 : s1.selected_city = s.selected_city := by
    rw [← hS1]
    split
    · exact postWeather_selected s _ _
    · rfl
  have hjoin : ∀ a : State,
      (pure (if (tm.name == "book_flight" && _is_correct_span_for_tool "book_flight" tm.parsed) = true then
          { a with flight_booking := some tm.parsed }
        else if (tm.name == "book_hotel" && _is_correct_span_for_tool "book_hotel" tm.parsed) = true then
          { a with hotel_booking := some tm.parsed }
        else a) : Except String State) = .ok s2 →
      s2.selected_city = a.selected_city := by
    intro a ha
    injection ha with ha2
    rw [← ha2]
    split_ifs <;> rfl
  by_cases h2 : (tm.name == "list_flights") = true
  · rw [if_pos h2] at h
    cases hf : postFlights s1 tm.tool_call_id tm.parsed with
    | error e => rw [hf, err_bind] at h; exact Except.noConfusion h
    | ok a =>
      rw [hf, ok_bind] at h
      rw [hjoin a h, postFlights_selected s1 _ _ a hf, hs1]
  · rw [if_neg h2] at h
    by_cases h3 : (tm.name == "list_hotels") = true
    · rw [if_pos h3] at h
      cases hf : postHotels s1 tm.tool_call_id tm.parsed with
      | error e => rw [hf, err_bind] at h; exact Except.noConfusion h
      | ok a =>
        rw [hf, ok_bind] at h
        rw [hjoin a h, postHotels_selected s1 _ _ a hf, hs1]
    · rw [if_neg h3] at h
      rw [hjoin s1 h, hs1]

/-- The whole post hook never touches the selected city. -/
theorem post_tool_update_selected (s : State) (ms : List ToolMessage) (s2 : State)
    (h : post_tool_update s ms = .ok s2) : s2.selected_city = s.selected_city := by
  induction ms generalizing s with
  | nil =>
    injection h with h1
    rw [← h1]
  | cons tm t ih =>
    have heq : post_tool_update s (tm :: t) =
        (postStep s tm >>= fun a => post_tool_update a t) := rfl
    rw [heq] at h
    cases hstep : postStep s tm with
    | error e => rw [hstep, err_bind] at h; exact Except.noConfusion h
    | ok a =>
      rw [hstep, ok_bind] at h
      rw [ih a h, postStep_selected s tm a hstep]

/-- The whole pre hook preserves a truthy selected city. -/
theorem pre_tool_update_selected_of_truthy (s : State) (tcs : List ToolCall)
    (h : selectedTruthy s = true) :
    (pre_tool_update s tcs).selected_city = s.selected_city := by
  induction tcs generalizing s with
  | nil => rfl
  | cons tc t ih =>
    have h1 : (preStep s tc).selected_city = s.selected_city :=
      preStep_selected_of_truthy s tc h
    have h2 : selectedTruthy (preStep s tc) = true := by
      rw [selectedTruthy_congr h1]
      exact h
    show (pre_tool_update (preStep s tc) t).selected_city = s.selected_city
    rw [ih (preStep s tc) h2, h1]

/-- C5: first-destination-wins.  (a) Once a non-empty destination is
selected, no pre-tool update of any batch overwrites it; (b) no post-tool
update ever touches it; (c) from an unselected state, a batch selects
exactly the destination named by its first flight/hotel search that names a
candidate from the fixed set, and selects nothing when no call does. -/
theorem C5_first_destination_wins :
    (∀ (s : State) (tcs : List ToolCall), selectedTruthy s = true →
      (pre_tool_update s tcs).selected_city = s.selected_city) ∧
    (∀ (s : State) (ms : List ToolMessage) (s2 : State), post_tool_update s ms = .ok s2 →
      s2.selected_city = s.selected_city) ∧
    (∀ (s : State) (tcs : List ToolCall), selectedTruthy s = false →
      (pre_tool_update s tcs).selected_city =
        (match firstDest tcs with
         | some d => some d
         | none => s.selected_city)) := by
  refine ⟨pre_tool_update_selected_of_truthy, post_tool_update_selected, ?_⟩
  intro s tcs
  induction tcs generalizing s with
  | nil => intro _; rfl
  | cons tc t ih =>
    intro hsel
    show (pre_tool_update (preStep s tc) t).selected_city = _
    have hstep := preStep_dest s tc hsel
    cases hd : tcDest tc with
    | some d =>
      rw [hd] at hstep
      have hne : d ≠ "" := by
        unfold tcDest at hd
        by_cases hw : (tc.name == "list_flights") = true
        · rw [if_pos hw] at hd
          exact candOf_ne_empty _ _ hd
        · rw [if_neg hw] at hd
          by_cases hf : (tc.name == "list_hotels") = true
          · rw [if_pos hf] at hd
            exact candOf_ne_empty _ _ hd
          · rw [if_neg hf] at hd
            exact absurd hd (by simp)
      have htr : selectedTruthy (preStep s tc) = true := by
        unfold selectedTruthy
        rw [hstep]
        simpa using hne
      rw [pre_tool_update_selected_of_truthy (preStep s tc) t htr, hstep]
      have hfd : firstDest (tc :: t) = some d := by
        simp [firstDest, List.filterMap_cons, hd]
      rw [hfd]
    | none =>
      rw [hd] at hstep
      have htr : selectedTruthy (preStep s tc) = false := by
        rw [selectedTruthy_congr hstep]
        exact hsel
      rw [ih (preStep s tc) htr, hstep]
      have hfd : firstDest (tc :: t) = firstDest t := by
        simp [firstDest, List.filterMap_cons, hd]
      rw [hfd]

/-- C5 witness: with BKK already selected, a later hotel search naming DXB
does not overwrite the selection. -/
theorem C5_witness :
    selectedTruthy sBKK = true ∧
    (pre_tool_update sBKK [tcDXB]).selected_city = sBKK.selected_city :=
  ⟨rfl, C5_first_destination_wins.1 sBKK [tcDXB] rfl⟩

/-- Destination selection never touches any ledger list. -/
theorem maybeSelect_ledgerEq (s : State) (v : PyVal) : ledgerEq (maybeSelect s v) s := by
  rcases maybeSelect_cases s v with h | ⟨d, h⟩ <;> rw [h] <;>
    exact ⟨rfl, rfl, rfl, rfl, rfl, rfl, rfl⟩

/-- C7 (amended): a `list_flights`/`list_hotels` request whose date pair is
not a candidate span (canonical key not derivable) is NOT recorded in the
Attempt Ledger at all — every ledger list is left unchanged (at most the
destination selection applies) — but the request is still dispatched:
`ToolNode` produces exactly one result message for it, in batch order. -/
theorem C7_underivable_key_not_recorded_still_dispatched (s : State) (tc : ToolCall)
    (exec : ToolCall → PyVal)
    (hn : tc.name = "list_flights" ∨ tc.name = "list_hotels")
    (hf : tc.name = "list_flights" →
      _span_suffix (dget tc.args "dep") (dget tc.args "ret") = none)
    (hh : tc.name = "list_hotels" →
      _span_suffix (dget tc.args "checkin") (dget tc.args "checkout") = none) :
    ledgerEq (pre_tool_update s [tc]) s ∧
    toolMsgsFor exec [tc] = [LMsg.tool tc.name (exec tc) tc.id] := by
  refine ⟨?_, rfl⟩
  show ledgerEq (preStep s tc) s
  rcases hn with hn | hn
  · have hb : preStep s tc = preFlights s tc := by
      unfold preStep
      rw [hn]
      rfl
    rw [hb]
    unfold preFlights
    dsimp only
    rw [hf hn]
    exact maybeSelect_ledgerEq s _
  · have hb : preStep s tc = preHotels s tc := by
      unfold preStep
      rw [hn]
      rfl
    rw [hb]
    unfold preHotels
    dsimp only
    rw [hh hn]
    exact maybeSelect_ledgerEq s _

/-- C7 counterexample: a `list_flights` request for the non-candidate span
(2025-10-05, 2025-10-12) has no derivable canonical key and is recorded
NOWHERE — after the pre hook the ledger holds zero entries, there is no
entry under a raw-argument-tuple key or any other key — although the request
is still dispatched. -/
theorem C7_counterexample :
    _span_suffix (dget tcOdd.args "dep") (dget tcOdd.args "ret") = none ∧
    ledgerCount (pre_tool_update initial_state [tcOdd]) = 0 ∧
    toolMsgsFor (fun _ => PyVal.vlist []) [tcOdd] =
      [LMsg.tool "list_flights" (PyVal.vlist []) "call_3"] :=
  ⟨rfl, rfl, rfl⟩

/-- C7 witness: the amended theorem applied to the concrete non-candidate
request. -/
theorem C7_witness :
    (tcOdd.name = "list_flights" ∨ tcOdd.name = "list_hotels") ∧
    (ledgerEq (pre_tool_update initial_state [tcOdd]) initial_state ∧
      toolMsgsFor (fun _ => PyVal.vlist []) [tcOdd] =
        [LMsg.tool tcOdd.name ((fun _ => PyVal.vlist []) tcOdd) tcOdd.id]) :=
  ⟨Or.inl rfl,
    C7_underivable_key_not_recorded_still_dispatched initial_state tcOdd
      (fun _ => PyVal.vlist []) (Or.inl rfl) (fun _ => rfl)
      (fun h => absurd h (by decide))⟩

/-- Writing a fresh key into a store appends it. -/
theorem dictSet_fresh (d : PyDict) (k : String) (v : PyVal)
    (h : storeFind d k = none) : dictSet d k v = d ++ [(k, v)] := by
  have hfind : d.find? (fun kv => kv.1 == k) = none := by
    unfold storeFind at h
    exact Option.map_eq_none'.mp h
  have hany : d.any (fun kv => kv.1 == k) = false := by
    rw [List.any_eq_false]
    intro kv hkv
    have := List.find?_eq_none.mp hfind kv hkv
    simpa using this
  unfold dictSet
  rw [hany]
  simp

/-- C10: book_hotel is atomic on error — it writes a new confirmation record
to the persisted hotel store iff it returns a record carrying a
confirmation_id (the record is appended under the fresh `HT-` key), and on
every error return (invalid ids/dates/city, unknown city/hotel/offer, or the
blocked window) it returns an error dict and leaves the store unchanged. -/
theorem C10_book_hotel_atomic (data : HotelsData) (hex6 : String) (store : PyDict)
    (hid oid ci co city : PyVal)
    (hfresh : storeFind store ("HT-" ++ hex6) = none) :
    (hasKey (book_hotel data hex6 store hid oid ci co city).1 "confirmation_id" = true →
      (book_hotel data hex6 store hid oid ci co city).2 =
        store ++ [("HT-" ++ hex6, (book_hotel data hex6 store hid oid ci co city).1)]) ∧
    (hasKey (book_hotel data hex6 store hid oid ci co city).1 "confirmation_id" = false →
      hasKey (book_hotel data hex6 store hid oid ci co city).1 "error" = true ∧
      (book_hotel data hex6 store hid oid ci co city).2 = store) := by
  unfold book_hotel
  split_ifs with h1 h2 h3 h4 h5 hb
  · exact ⟨fun hc => absurd hc (by simp [hasKey, errDict]), fun _ => ⟨rfl, rfl⟩⟩
  · exact ⟨fun hc => absurd hc (by simp [hasKey, errDict]), fun _ => ⟨rfl, rfl⟩⟩
  · exact ⟨fun hc => absurd hc (by simp [hasKey, errDict]), fun _ => ⟨rfl, rfl⟩⟩
  · exact ⟨fun hc => absurd hc (by simp [hasKey, errDict]), fun _ => ⟨rfl, rfl⟩⟩
  · exact ⟨fun hc => absurd hc (by simp [hasKey, errDict]), fun _ => ⟨rfl, rfl⟩⟩
  · cases hfh : _find_hotel data (pyStr hid) (pyStr oid) (pyStr ci) (pyStr co) (pyStr city) with
    | error e =>
      exact ⟨fun hc => absurd hc (by simp [hasKey, errDict]), fun _ => ⟨rfl, rfl⟩⟩
    | ok meta =>
      exact ⟨fun hc => absurd hc (by simp [hasKey, errDict]), fun _ => ⟨rfl, rfl⟩⟩
  · cases hfh : _find_hotel data (pyStr hid) (pyStr oid) (pyStr ci) (pyStr co) (pyStr city) with
    | error e =>
      exact ⟨fun hc => absurd hc (by simp [hasKey, errDict]), fun _ => ⟨rfl, rfl⟩⟩
    | ok meta =>
      refine ⟨fun _ => ?_, fun hc => absurd hc (by simp [hasKey])⟩
      exact dictSet_fresh store ("HT-" ++ hex6) _ hfresh

/-- C10 witness: the theorem applied at a concrete successful booking over a
one-hotel data directory and an empty store. -/
theorem C10_witness :
    storeFind ([] : PyDict) ("HT-" ++ "9f9f9f") = none ∧
    ((hasKey (book_hotel hotelsDataW "9f9f9f" [] (.vstr "H1") (.vstr "O1")
        (.vstr "2025-10-03") (.vstr "2025-10-10") (.vstr "BKK")).1 "confirmation_id" = true →
      (book_hotel hotelsDataW "9f9f9f" [] (.vstr "H1") (.vstr "O1")
        (.vstr "2025-10-03") (.vstr "2025-10-10") (.vstr "BKK")).2 =
        [] ++ [("HT-" ++ "9f9f9f", (book_hotel hotelsDataW "9f9f9f" [] (.vstr "H1") (.vstr "O1")
          (.vstr "2025-10-03") (.vstr "2025-10-10") (.vstr "BKK")).1)]) ∧
    (hasKey (book_hotel hotelsDataW "9f9f9f" [] (.vstr "H1") (.vstr "O1")
        (.vstr "2025-10-03") (.vstr "2025-10-10") (.vstr "BKK")).1 "confirmation_id" = false →
      hasKey (book_hotel hotelsDataW "9f9f9f" [] (.vstr "H1") (.vstr "O1")
        (.vstr "2025-10-03") (.vstr "2025-10-10") (.vstr "BKK")).1 "error" = true ∧
      (book_hotel hotelsDataW "9f9f9f" [] (.vstr "H1") (.vstr "O1")
        (.vstr "2025-10-03") (.vstr "2025-10-10") (.vstr "BKK")).2 = [])) :=
  ⟨rfl, C10_book_hotel_atomic hotelsDataW "9f9f9f" [] (.vstr "H1") (.vstr "O1")
    (.vstr "2025-10-03") (.vstr "2025-10-10") (.vstr "BKK") rfl⟩

/-- Error characterization of `get_weather_summary`: the call succeeds iff
the titled city is a known key and both dates parse with end not before
start; in every other case it raises `ValueError`. -/
theorem weather_isOk_iff (cities : List String) (city start : String) (stop? : Option String) :
    (get_weather_summary cities city start stop?).isOk = true ↔
      (cities.contains (pyTitle city) = true ∧
        ∃ d1 d2, fromisoformat start = some d1 ∧
          fromisoformat (effStop stop? start) = some d2 ∧ dateLt d2 d1 = false) := by
  by_cases hc : cities.contains (pyTitle city) = true
  case neg =>
    have hm : pyTitle city ∉ cities := by simpa using hc
    simp [get_weather_summary, hm, Except.isOk, Except.toBool]
  case pos =>
    have hm : pyTitle city ∈ cities := by simpa using hc
    cases hp1 : fromisoformat start with
    | none => simp [get_weather_summary, hm, hp1, Except.isOk, Except.toBool]
    | some d1 =>
      cases hp2 : fromisoformat (effStop stop? start) with
      | none => simp [get_weather_summary, hm, hp1, hp2, Except.isOk, Except.toBool]
      | some d2 =>
        by_cases hlt : dateLt d2 d1 = true
        · simp [get_weather_summary, hm, hp1, hp2, hlt, Except.isOk, Except.toBool]
        · have hlt2 : dateLt d2 d1 = false := by simpa using hlt
          simp [get_weather_summary, hm, hp1, hp2, hlt2, Except.isOk, Except.toBool]

/-- The currency action returns an error dict exactly when the rate key is
missing; it never raises. -/
theorem convert_error_iff (fluct amount : Rat) (f t : String) :
    hasKey (convert_currency fluct amount f t) "error" =
      (rates.find? (fun kv => kv.1 == f ++ "_" ++ t)).isNone := by
  unfold convert_currency
  dsimp only
  cases h : rates.find? (fun kv => kv.1 == f ++ "_" ++ t) with
  | none => rfl
  | some kv => rfl

/-- `book_flight` always returns either an error dict or a confirmation
record; it never raises. -/
theorem book_flight_structured (data : FlightsData) (hex : String) (store : PyDict)
    (fid dep rd dst : PyVal) :
    (hasKey (book_flight data hex store fid dep rd dst).1 "error" = true ∧
      hasKey (book_flight data hex store fid dep rd dst).1 "confirmation_id" = false) ∨
    (hasKey (book_flight data hex store fid dep rd dst).1 "error" = false ∧
      hasKey (book_flight data hex store fid dep rd dst).1 "confirmation_id" = true) := by
  unfold book_flight
  split_ifs with h1
  · exact Or.inl ⟨rfl, rfl⟩
  · cases hfo : _find_flight_offer data (pyStr fid) with
    | error e => exact Or.inl ⟨rfl, rfl⟩
    | ok meta =>
      dsimp only
      split_ifs with hb
      · exact Or.inl ⟨rfl, rfl⟩
      · exact Or.inr ⟨rfl, rfl⟩

/-- `book_hotel` always returns either an error dict or a confirmation
record; it never raises. -/
theorem book_hotel_structured (data : HotelsData) (hex : String) (store : PyDict)
    (hid oid ci co cty : PyVal) :
    (hasKey (book_hotel data hex store hid oid ci co cty).1 "error" = true ∧
      hasKey (book_hotel data hex store hid oid ci co cty).1 "confirmation_id" = false) ∨
    (hasKey (book_hotel data hex store hid oid ci co cty).1 "error" = false ∧
      hasKey (book_hotel data hex store hid oid ci co cty).1 "confirmation_id" = true) := by
  unfold book_hotel
  split_ifs with h1 h2 h3 h4 h5 hb
  · exact Or.inl ⟨rfl, rfl⟩
  · exact Or.inl ⟨rfl, rfl⟩
  · exact Or.inl ⟨rfl, rfl⟩
  · exact Or.inl ⟨rfl, rfl⟩
  · exact Or.inl ⟨rfl, rfl⟩
  · cases hfh : _find_hotel data (pyStr hid) (pyStr oid) (pyStr ci) (pyStr co) (pyStr cty) with
    | error e => exact Or.inl ⟨rfl, rfl⟩
    | ok meta => exact Or.inl ⟨rfl, rfl⟩
  · cases hfh : _find_hotel data (pyStr hid) (pyStr oid) (pyStr ci) (pyStr co) (pyStr cty) with
    | error e => exact Or.inl ⟨rfl, rfl⟩
    | ok meta => exact Or.inr ⟨rfl, rfl⟩

/-- C6 (amended): `book_flight`, `book_hotel` and `convert_currency` are
total and surface failures as structured error payloads (`list_flights` and
`list_hotels` are total by construction, returning lists); `get_weather_summary`,
however, is NOT exception-free: it raises `ValueError` — instead of
returning an error payload — exactly when the titled city is not a key of
the weather data, a date fails to parse, or the end date precedes the start
date. -/
theorem C6_actions_error_behaviour :
    (∀ (cities : List String) (city start : String) (stop? : Option String),
      (get_weather_summary cities city start stop?).isOk = true ↔
        (cities.contains (pyTitle city) = true ∧
          ∃ d1 d2, fromisoformat start = some d1 ∧
            fromisoformat (effStop stop? start) = some d2 ∧ dateLt d2 d1 = false)) ∧
    (∀ (fluct amount : Rat) (f t : String),
      hasKey (convert_currency fluct amount f t) "error" =
        (rates.find? (fun kv => kv.1 == f ++ "_" ++ t)).isNone) ∧
    (∀ (data : FlightsData) (hex : String) (store : PyDict) (fid dep rd dst : PyVal),
      (hasKey (book_flight data hex store fid dep rd dst).1 "error" = true ∧
        hasKey (book_flight data hex store fid dep rd dst).1 "confirmation_id" = false) ∨
      (hasKey (book_flight data hex store fid dep rd dst).1 "error" = false ∧
        hasKey (book_flight data hex store fid dep rd dst).1 "confirmation_id" = true)) ∧
    (∀ (data : HotelsData) (hex : String) (store : PyDict) (hid oid ci co cty : PyVal),
      (hasKey (book_hotel data hex store hid oid ci co cty).1 "error" = true ∧
        hasKey (book_hotel data hex store hid oid ci co cty).1 "confirmation_id" = false) ∨
      (hasKey (book_hotel data hex store hid oid ci co cty).1 "error" = false ∧
        hasKey (book_hotel data hex store hid oid ci co cty).1 "confirmation_id" = true)) :=
  ⟨weather_isOk_iff, convert_error_iff, book_flight_structured, book_hotel_structured⟩

/-- C6 counterexample: `get_weather_summary` for the unknown city "Atlantis"
(weather data keyed by the three candidate cities) raises `ValueError`
rather than returning a structured error result. -/
theorem C6_counterexample :
    get_weather_summary weatherCities3 "Atlantis" "2025-10-03" none =
      .error "Unknown city: Atlantis" := rfl

/-- A post-safe parsed value always yields a result value. -/
theorem resultVal_ok (p : PyVal) (m : String) (h : postSafe p = true) :
    ∃ v, resultVal p m = .ok v := by
  unfold resultVal
  by_cases ht : p.truthy = true
  · rw [if_pos ht]
    unfold postSafe at h
    rw [ht] at h
    simp only [Bool.not_true, Bool.false_or] at h
    cases hidx : pyIndex0 p with
    | ok v => exact ⟨v, rfl⟩
    | error e =>
      rw [hidx] at h
      simp [Except.isOk, Except.toBool] at h
  · rw [if_neg ht]
    exact ⟨.vstr m, rfl⟩

/-- A post-safe result never fails the flights fill step. -/
theorem stepFillFlights_ok (l : List FlightSearch) (tid : String) (p : PyVal)
    (h : postSafe p = true) : ∃ l2, stepFillFlights l tid p = .ok l2 := by
  unfold stepFillFlights
  by_cases hopen : hasOpenFlight l tid = true
  · rw [if_pos hopen]
    obtain ⟨v, hv⟩ := resultVal_ok p "No flights found" h
    exact ⟨fillFlightResult l tid v, by rw [hv]; rfl⟩
  · rw [if_neg hopen]
    exact ⟨l, rfl⟩

/-- A post-safe result never fails the hotels fill step. -/
theorem stepFillHotels_ok (l : List HotelSearch) (tid : String) (p : PyVal)
    (h : postSafe p = true) : ∃ l2, stepFillHotels l tid p = .ok l2 := by
  unfold stepFillHotels
  by_cases hopen : hasOpenHotel l tid = true
  · rw [if_pos hopen]
    obtain ⟨v, hv⟩ := resultVal_ok p "No hotels found" h
    exact ⟨fillHotelResult l tid v, by rw [hv]; rfl⟩
  · rw [if_neg hopen]
    exact ⟨l, rfl⟩

/-- The flights branch of the post hook succeeds on post-safe results. -/
theorem postFlights_ok (s : State) (tid : String) (p : PyVal)
    (h : postSafe p = true) : ∃ s2, postFlights s tid p = .ok s2 := by
  obtain ⟨a, ha⟩ := stepFillFlights_ok s.flights_01_08 tid p h
  obtain ⟨b, hb⟩ := stepFillFlights_ok s.flights_02_09 tid p h
  obtain ⟨c, hc⟩ := stepFillFlights_ok s.flights_03_10 tid p h
  refine ⟨{ s with flights_01_08 := a, flights_02_09 := b, flights_03_10 := c }, ?_⟩
  unfold postFlights
  rw [ha, ok_bind, hb, ok_bind, hc, ok_bind]
  rfl

/-- The hotels branch of the post hook succeeds on post-safe results. -/
theorem postHotels_ok (s : State) (tid : String) (p : PyVal)
    (h : postSafe p = true) : ∃ s2, postHotels s tid p = .ok s2 := by
  obtain ⟨a, ha⟩ := stepFillHotels_ok s.hotels_01_08 tid p h
  obtain ⟨b, hb⟩ := stepFillHotels_ok s.hotels_02_09 tid p h
  obtain ⟨c, hc⟩ := stepFillHotels_ok s.hotels_03_10 tid p h
  refine ⟨{ s with hotels_01_08 := a, hotels_02_09 := b, hotels_03_10 := c }, ?_⟩
  unfold postHotels
  rw [ha, ok_bind, hb, ok_bind, hc, ok_bind]
  rfl

/-- One post step succeeds whenever list-search results are post-safe. -/
theorem postStep_ok (s : State) (tm : ToolMessage)
    (h : (tm.name = "list_flights" ∨ tm.name = "list_hotels") → postSafe tm.parsed = true) :
    ∃ s2, postStep s tm = .ok s2 := by
  unfold postStep
  dsimp only
  by_cases h2 : (tm.name == "list_flights") = true
  · rw [if_pos h2]
    obtain ⟨a, ha⟩ := postFlights_ok
      (if (tm.name == "get_weather_summary") = true then
        postWeather s tm.tool_call_id tm.parsed else s)
      tm.tool_call_id tm.parsed (h (Or.inl (by simpa using h2)))
    refine ⟨(if (tm.name == "book_flight" && _is_correct_span_for_tool "book_flight" tm.parsed) = true then
        { a with flight_booking := some tm.parsed }
      else if (tm.name == "book_hotel" && _is_correct_span_for_tool "book_hotel" tm.parsed) = true then
        { a with hotel_booking := some tm.parsed }
      else a), ?_⟩
    rw [ha]
    rfl
  · rw [if_neg h2]
    by_cases h3 : (tm.name == "list_hotels") = true
    · rw [if_pos h3]
      obtain ⟨a, ha⟩ := postHotels_ok
        (if (tm.name == "get_weather_summary") = true then
          postWeather s tm.tool_call_id tm.parsed else s)
        tm.tool_call_id tm.parsed (h (Or.inr (by simpa using h3)))
      refine ⟨(if (tm.name == "book_flight" && _is_correct_span_for_tool "book_flight" tm.parsed) = true then
          { a with flight_booking := some tm.parsed }
        else if (tm.name == "book_hotel" && _is_correct_span_for_tool "book_hotel" tm.parsed) = true then
          { a with hotel_booking := some tm.parsed }
        else a), ?_⟩
      rw [ha]
      rfl
    · rw [if_neg h3]
      exact ⟨_, rfl⟩

/-- The whole post hook succeeds whenever list-search results are
post-safe. -/
theorem post_tool_update_ok (s : State) (ms : List ToolMessage)
    (h : ∀ tm ∈ ms, (tm.name = "list_flights" ∨ tm.name = "list_hotels") →
      postSafe tm.parsed = true) :
    ∃ s2, post_tool_update s ms = .ok s2 := by
  induction ms generalizing s with
  | nil => exact ⟨s, rfl⟩
  | cons tm t ih =>
    obtain ⟨a, ha⟩ := postStep_ok s tm (h tm (List.mem_cons_self tm t))
    obtain ⟨b, hb⟩ := ih a (fun tm2 hm => h tm2 (List.mem_cons_of_mem _ hm))
    refine ⟨b, ?_⟩
    show (postStep s tm >>= fun x => post_tool_update x t) = .ok b
    rw [ha, ok_bind, hb]

/-- Every trailing tool message is a tool message of the list. -/
theorem trailingTools_mem (msgs : List LMsg) (tm : ToolMessage)
    (h : tm ∈ trailingTools msgs) :
    LMsg.tool tm.name tm.parsed tm.tool_call_id ∈ msgs := by
  unfold trailingTools at h
  rw [List.mem_filterMap] at h
  obtain ⟨m, hm, hmt⟩ := h
  rw [List.mem_reverse] at hm
  have hm2 : m ∈ msgs.reverse := (List.takeWhile_prefix _).subset hm
  rw [List.mem_reverse] at hm2
  cases m with
  | human c => exact absurd hmt (by simp)
  | ai r => exact absurd hmt (by simp)
  | tool n p tid =>
    injection hmt with h4
    rw [← h4]
    exact hm2

/-- Safety transfers from the message list to its trailing tool messages. -/
theorem trailing_safe (msgs : List LMsg) (h : msgsSafe msgs) :
    ∀ tm ∈ trailingTools msgs, (tm.name = "list_flights" ∨ tm.name = "list_hotels") →
      postSafe tm.parsed = true := by
  intro tm hmem hname
  exact h _ (trailingTools_mem msgs tm hmem) hname

/-- Appending an AI message preserves message safety. -/
theorem msgsSafe_append_ai (msgs : List LMsg) (r : AIReply) (h : msgsSafe msgs) :
    msgsSafe (msgs ++ [LMsg.ai r]) := by
  intro m hm
  rcases List.mem_append.mp hm with h1 | h1
  · exact h m h1
  · rw [List.mem_singleton] at h1
    subst h1
    trivial

/-- Appending tool results of a safe executor preserves message safety. -/
theorem msgsSafe_append_tools (msgs : List LMsg) (exec : ToolCall → PyVal)
    (tcs : List ToolCall)
    (hE : ∀ tc, (tc.name = "list_flights" ∨ tc.name = "list_hotels") →
      postSafe (exec tc) = true)
    (h : msgsSafe msgs) : msgsSafe (msgs ++ toolMsgsFor exec tcs) := by
  intro m hm
  rcases List.mem_append.mp hm with h1 | h1
  · exact h m h1
  · unfold toolMsgsFor at h1
    rw [List.mem_map] at h1
    obtain ⟨tc, _, heq⟩ := h1
    subst heq
    intro hname
    exact hE tc hname

/-- The pre-tool node only changes the structured state. -/
theorem preToolNode_messages (gs : GraphState) :
    (preToolNode gs).messages = gs.messages := by
  unfold preToolNode
  repeat' split
  all_goals rfl

/-- The tools node appends one result message per requested call. -/
theorem toolsNode_eq (exec : ToolCall → PyVal) (gs : GraphState) (r : AIReply)
    (h : gs.messages.getLast? = some (.ai r)) :
    toolsNode exec gs = { gs with messages := gs.messages ++ toolMsgsFor exec r.tool_calls } := by
  unfold toolsNode
  rw [h]

/-- The post-tool node succeeds on safe messages and keeps the messages. -/
theorem postToolNode_ok (gs : GraphState) (h : msgsSafe gs.messages) :
    ∃ gs2, postToolNode gs = .ok gs2 ∧ gs2.messages = gs.messages := by
  obtain ⟨s2, hs2⟩ := post_tool_update_ok gs.state (trailingTools gs.messages)
    (trailing_safe _ h)
  refine ⟨{ gs with state := s2 }, ?_, rfl⟩
  unfold postToolNode
  rw [hs2]
  rfl

/-- An assistant superstep of an always-calling agent continues to the
pre-tool node. -/
theorem step_assistant (agent : GraphState → AIReply) (exec : ToolCall → PyVal)
    (hA : ∀ gs, (agent gs).tool_calls ≠ []) (gs : GraphState) :
    stepNode agent exec .assistant gs = .ok (some .pre_tool, assistantNode agent gs) := by
  have hcond : custom_tools_condition (assistantNode agent gs) = true := by
    unfold custom_tools_condition assistantNode
    have hl : (gs.messages ++ [LMsg.ai (agent gs)]).getLast? = some (.ai (agent gs)) := by
      simp
    rw [hl]
    simpa using hA gs
  unfold stepNode
  dsimp only
  rw [hcond]
  rfl

/-- With an always-calling agent and a safe executor, the graph never
reaches END: the recursion limit aborts the run after exactly
`(fuel + nodeOff n) / 4` further Deciding steps. -/
theorem runAux_recursionLimit (agent : GraphState → AIReply) (exec : ToolCall → PyVal)
    (hA : ∀ gs, (agent gs).tool_calls ≠ [])
    (hE : ∀ tc, (tc.name = "list_flights" ∨ tc.name = "list_hotels") →
      postSafe (exec tc) = true) :
    ∀ (fuel : Nat) (n : Node) (gs : GraphState) (d : Nat), nodeInv n gs →
      runAux agent exec fuel n gs d = .recursionLimit (d + (fuel + nodeOff n) / 4) := by
  intro fuel
  induction fuel with
  | zero =>
    intro n gs d _
    have h0 : (0 + nodeOff n) / 4 = 0 := by cases n <;> rfl
    show RunOut.recursionLimit d = _
    rw [h0, Nat.add_zero]
  | succ f ih =>
    intro n gs d hinv
    cases n with
    | assistant =>
      have hred : runAux agent exec (f + 1) .assistant gs d =
          (match stepNode agent exec .assistant gs with
           | .error e => RunOut.failed e (d + 1)
           | .ok (none, gs2) => RunOut.finished gs2 (d + 1)
           | .ok (some n2, gs2) => runAux agent exec f n2 gs2 (d + 1)) := rfl
      rw [hred, step_assistant agent exec hA gs]
      have hinv2 : nodeInv .pre_tool (assistantNode agent gs) := by
        refine ⟨msgsSafe_append_ai _ _ hinv, ⟨agent gs, ?_, hA gs⟩⟩
        show (gs.messages ++ [LMsg.ai (agent gs)]).getLast? = some (.ai (agent gs))
        simp
      show runAux agent exec f .pre_tool (assistantNode agent gs) (d + 1) = _
      rw [ih .pre_tool (assistantNode agent gs) (d + 1) hinv2]
      congr 1
      show d + 1 + (f + 0) / 4 = d + (f + 1 + 3) / 4
      omega
    | pre_tool =>
      obtain ⟨hsafe, r, hlast, hne⟩ := hinv
      have hred : runAux agent exec (f + 1) .pre_tool gs d =
          runAux agent exec f .tools (preToolNode gs) d := rfl
      rw [hred]
      have hinv2 : nodeInv .tools (preToolNode gs) := by
        refine ⟨?_, ⟨r, ?_, hne⟩⟩
        · show msgsSafe (preToolNode gs).messages
          rw [preToolNode_messages]
          exact hsafe
        · rw [preToolNode_messages]
          exact hlast
      rw [ih .tools (preToolNode gs) d hinv2]
      rfl
    | tools =>
      obtain ⟨hsafe, r, hlast, hne⟩ := hinv
      have hred : runAux agent exec (f + 1) .tools gs d =
          runAux agent exec f .post_tool (toolsNode exec gs) d := rfl
      rw [hred]
      have hinv2 : nodeInv .post_tool (toolsNode exec gs) := by
        show msgsSafe (toolsNode exec gs).messages
        rw [toolsNode_eq exec gs r hlast]
        exact msgsSafe_append_tools _ exec _ hE hsafe
      rw [ih .post_tool (toolsNode exec gs) d hinv2]
      rfl
    | post_tool =>
      have hsafe : msgsSafe gs.messages := hinv
      obtain ⟨gs2, hok, hmsgs⟩ := postToolNode_ok gs hsafe
      have hred : runAux agent exec (f + 1) .post_tool gs d =
          (match stepNode agent exec .post_tool gs with
           | .error e => RunOut.failed e d
           | .ok (none, gs3) => RunOut.finished gs3 d
           | .ok (some n2, gs3) => runAux agent exec f n2 gs3 d) := rfl
      have hstep : stepNode agent exec .post_tool gs = .ok (some .assistant, gs2) := by
        show (postToolNode gs).map (fun g => (some Node.assistant, g)) = _
        rw [hok]
        rfl
      rw [hred, hstep]
      have hinv2 : nodeInv .assistant gs2 := by
        show msgsSafe gs2.messages
        rw [hmsgs]
        exact hsafe
      show runAux agent exec f .assistant gs2 d = _
      rw [ih .assistant gs2 d hinv2]
      rfl

/-- C8 (amended): with recursion limit N as the configured budget, an agent
that never returns an empty batch drives the loop into a
GraphRecursionError after exactly ceil(N/4) = (N+3)/4 Deciding cycles (each
cycle costs the four supersteps assistant, pre_tool, tools, post_tool), not
after N cycles; the error propagates out of `run_stateful_trial`, so the
driver reports the trial unfinished with an EMPTY message list — the
accumulated transcript and state are not reported. -/
theorem C8_recursion_budget (agent : GraphState → AIReply) (exec : ToolCall → PyVal)
    (up : String) (R : Nat)
    (hA : ∀ gs, (agent gs).tool_calls ≠ [])
    (hE : ∀ tc, (tc.name = "list_flights" ∨ tc.name = "list_hotels") →
      postSafe (exec tc) = true) :
    run_stateful_trial agent exec up R = .recursionLimit ((R + 3) / 4) ∧
    (run_single_trial agent exec up R).finished = false ∧
    (run_single_trial agent exec up R).messages = [] := by
  have hinv : nodeInv .assistant { state := initial_state, messages := [.human up] } := by
    intro m hm
    rw [List.mem_singleton] at hm
    subst hm
    trivial
  have hmain : run_stateful_trial agent exec up R = .recursionLimit ((R + 3) / 4) := by
    show runAux agent exec R .assistant
      { state := initial_state, messages := [.human up] } 0 = _
    rw [runAux_recursionLimit agent exec hA hE R .assistant
      { state := initial_state, messages := [.human up] } 0 hinv]
    congr 1
    show 0 + (R + 3) / 4 = (R + 3) / 4
    omega
  refine ⟨hmain, ?_, ?_⟩ <;> (unfold run_single_trial; rw [hmain])

/-- C8 counterexample: with budget 8 and an agent that always requests a
weather check, the run hits the recursion limit after 2 Deciding cycles,
not 8. -/
theorem C8_counterexample :
    run_stateful_trial cAgent cExec "Plan a trip." 8 = .recursionLimit 2 ∧ (2 : Nat) ≠ 8 :=
  ⟨rfl, by decide⟩

/-- C8 witness: the amended theorem applied to the concrete always-calling
agent at budget 8. -/
theorem C8_witness :
    run_stateful_trial cAgent cExec "Plan a trip." 8 = .recursionLimit ((8 + 3) / 4) ∧
    (run_single_trial cAgent cExec "Plan a trip." 8).finished = false ∧
    (run_single_trial cAgent cExec "Plan a trip." 8).messages = [] :=
  C8_recursion_budget cAgent cExec "Plan a trip." 8
    (fun _ => by simp [cAgent])
    (fun tc h => by
      rcases h with h | h <;> simp [cExec, h, postSafe, PyVal.truthy, pyIndex0])
